import Mathlib

/-!
# Verification of the alphamail inbound-message pipeline

Shallow embedding of the inbound email webhook handler (`src/pages/api/email/inbound.ts`,
the current revision with webhook verification, onboarding handling, group creation and
AI fallback) and of the AI retry wrapper (`src/lib/ai.ts`: `withRetry`, `AIFailureError`
and the extraction entry points).

Conventions of the embedding:
* The generative model is an oracle: a record of functions returning `Except AIErr _`,
  mirroring the fact that every extraction either yields the declared shape or throws.
* The persistence layer is a `Store` of typed rows; each supabase query used by the
  handler is translated to the corresponding pure list operation.
* The outbound transport is a function `Nat → Option String`: for the n-th send attempt
  of a request it returns `none` (delivered) or `some msg` (the transport error message
  that `sendEmail` wraps and throws).
* Row ids and creation timestamps are drawn from a single per-store counter `nextId`;
  a well-formedness predicate states that existing rows have ids/timestamps below it.
* JavaScript `Date` values are modelled by a day number `today : Nat` (days since
  1970-01-01, which was a Thursday, so the JS weekday of day `d` is `(d + 4) % 7`)
  and a millisecond timestamp `now : Nat`.
-/

namespace Alphamail

/-! ## Generic string helpers (JS string and regex primitives used by the source) -/

/-- Whitespace test approximating the JS regex class `\s` for the characters that occur
in email subjects and bodies. -/
def isSpaceChar (c : Char) : Bool :=
  c = ' ' || c = '\t' || c = '\n' || c = '\r'

/-- JS `s.toLowerCase()`, at the character-list level (the core library's
`String.toLower` is implemented with a byte-position loop that the kernel cannot
evaluate, so the embedding carries its own reducible version). -/
def jsToLower (s : String) : String :=
  String.mk (s.data.map Char.toLower)

/-- JS `s.trim()`: strip leading and trailing whitespace. -/
def jsTrim (s : String) : String :=
  String.mk (((s.data.dropWhile Char.isWhitespace).reverse.dropWhile
    Char.isWhitespace).reverse)

/-- JS `s.startsWith(pat)`. -/
def jsStartsWith (s pat : String) : Bool :=
  pat.data.isPrefixOf s.data

/-- JS `s.substring(0, n)`. -/
def jsSubstring (s : String) (n : Nat) : String :=
  String.mk (s.data.take n)

/-- JS `s.split("@")[0]`: the prefix before the first `@`. -/
def beforeAt (s : String) : String :=
  String.mk (s.data.takeWhile fun c => c ≠ '@')

/-- The UTF-8 bytes of a character (as numbers), for `encodeURIComponent`. -/
def utf8Bytes (c : Char) : List Nat :=
  let n := c.toNat
  if n < 128 then [n]
  else if n < 2048 then [192 + n / 64, 128 + n % 64]
  else if n < 65536 then [224 + n / 4096, 128 + n / 64 % 64, 128 + n % 64]
  else [240 + n / 262144, 128 + n / 4096 % 64, 128 + n / 64 % 64, 128 + n % 64]

/-- `listContains p l` is true when `p` occurs as a contiguous block inside `l`
(JS `String.prototype.includes`, and the meaning of an escaped SQL LIKE pattern
surrounded by percent wildcards). -/
def listContains (p : List Char) : List Char → Bool
  | [] => p.isEmpty
  | c :: t => p.isPrefixOf (c :: t) || listContains p t

/-- Substring containment on strings: JS `s.includes(pat)`. -/
def containsSub (pat s : String) : Bool :=
  listContains pat.data s.data

/-- Case-insensitive substring containment: the semantics of the handler's
`ilike("subject", "%cleanSubject%")` query (the pattern is escaped with
`escapeLikePattern` before interpolation, so `%`/`_` in the subject are literal). -/
def containsCI (pat s : String) : Bool :=
  containsSub (jsToLower pat) (jsToLower s)

/-- JS `(a || b)` for possibly-undefined strings: an absent or empty string is falsy. -/
def orStr (a b : Option String) : Option String :=
  match a with
  | some s => if s = "" then b else some s
  | none => b

/-- JS `(subject || "")`. -/
def strOrEmpty (a : Option String) : String :=
  (orStr a none).getD ""

/-! ## AI error values and the retry wrapper (`src/lib/ai.ts`) -/

/-- A thrown JS error as observed by `withRetry`: an optional HTTP `status`
(set by the provider SDK), the error class `name` and the `message`. -/
structure AIErr where
  status : Option Nat
  name : String
  message : String
deriving Repr, DecidableEq

/-- The error thrown by the ai module when the model client is not configured:
`class AIFailureError extends Error { ... this.name = "AIFailureError" }`. -/
def AIFailureError (message : String) : AIErr :=
  ⟨none, "AIFailureError", message⟩

/-- `const MAX_RETRIES = 3`. -/
def MAX_RETRIES : Nat := 3

/-- `const INITIAL_DELAY_MS = 1000`. -/
def INITIAL_DELAY_MS : Nat := 1000

/-- `error.status === 401 || error.status === 403` — the terminal (non-retryable)
classification inside `withRetry`. -/
def isAuthError (e : AIErr) : Bool :=
  e.status = some 401 || e.status = some 403

/-- Observable outcome of a `withRetry` run: the value returned or error thrown,
how many attempts were made, and the backoff delays (in ms) awaited between them. -/
structure RetryResult (α : Type) where
  result : Except AIErr α
  attempts : Nat
  delays : List Nat
deriving Repr

/-- The loop body of `withRetry`.  `fn k` is the outcome of the k-th attempt
(0-based); `remaining` counts the loop iterations still allowed, so the loop
guard `attempt < retries` is `remaining > 0` and `attempt < retries - 1`
(the "delay before retrying" guard) is `remaining > 1`.  When the final allowed
attempt fails with a retryable error the JS loop simply exits and rethrows
`lastError`, which at that point is exactly that final error; the
`remaining = 1` branch returns it directly.  The `remaining = 0` base case is
the JS `throw lastError` with `lastError` still `null` — reachable only when
the wrapper is invoked with `retries = 0`, which no caller does. -/
def withRetryGo (fn : Nat → Except AIErr α) : Nat → Nat → RetryResult α
  | attempt, remaining + 1 =>
    match fn attempt with
    | .ok v => ⟨.ok v, attempt + 1, []⟩
    | .error e =>
      if isAuthError e then
        -- Auth errors will not be fixed by retrying: rethrown immediately.
        ⟨.error e, attempt + 1, []⟩
      else if remaining = 0 then
        ⟨.error e, attempt + 1, []⟩
      else
        let r := withRetryGo fn (attempt + 1) remaining
        ⟨r.result, r.attempts, INITIAL_DELAY_MS * 2 ^ attempt :: r.delays⟩
  | attempt, 0 => ⟨.error ⟨none, "TypeError", "null thrown"⟩, attempt, []⟩

/-- `withRetry(fn)` with the default bound `MAX_RETRIES = 3`, as every call site
in `ai.ts` uses it. -/
def withRetry (fn : Nat → Except AIErr α) : RetryResult α :=
  withRetryGo fn 0 MAX_RETRIES

/-! ## Data model: the rows of the persistent store -/

/-- Message direction. -/
inductive Direction where
  | inbound
  | outbound
deriving Repr, DecidableEq

/-- A row of the `emails` table.  `summary` and `mood` are the derived annotations
written back after check-in extraction. -/
structure EmailRow where
  id : Nat
  userId : Nat
  direction : Direction
  subject : String
  content : String
  threadId : Option Nat
  createdAt : Nat
  summary : Option String
  mood : Option String
deriving Repr, DecidableEq

/-- A row of the `goals` table.  New rows are inserted with only `user_id`,
`description` and `due_date`; the database defaults give `completed = false`
and `completed_at = null`. -/
structure GoalRow where
  id : Nat
  userId : Nat
  description : String
  dueDate : Nat
  completed : Bool
  completedAt : Option Nat
  createdAt : Nat
deriving Repr, DecidableEq

/-- A row of the `pending_emails` table (provisional messages of unknown senders),
keyed by the raw email address. -/
structure PendingEmailRow where
  id : Nat
  email : String
  subject : String
  content : String
  threadId : Option Nat
  createdAt : Nat
deriving Repr, DecidableEq

/-- A row of the `profiles` table (the fields the inbound pipeline touches). -/
structure ProfileRow where
  userId : Nat
  firstName : Option String
  email : String
  onboarded : Bool
  summary : Option String
  createdAt : Nat
deriving Repr, DecidableEq

/-- A row of the `groups` table. -/
structure GroupRow where
  id : Nat
  createdBy : Nat
deriving Repr, DecidableEq

/-- A row of the `group_members` table. -/
structure GroupMemberRow where
  groupId : Nat
  userId : Nat
deriving Repr, DecidableEq

/-- The persistent store.  `confirmedUsers` models the auth service state mutated by
`supabase.auth.admin.updateUserById(userId, { email_confirm: true })`.  `nextId` is
the id/timestamp source: a fresh row receives `id = createdAt = nextId`. -/
structure Store where
  profiles : List ProfileRow
  emails : List EmailRow
  goals : List GoalRow
  pendingEmails : List PendingEmailRow
  groups : List GroupRow
  groupMembers : List GroupMemberRow
  confirmedUsers : List Nat
  nextId : Nat
deriving Repr, DecidableEq

/-! ## Extraction result shapes and the model oracle (`src/lib/ai.ts`) -/

/-- The `EmailMessage` shape fed to the model as conversation history. -/
structure EmailMessage where
  direction : Direction
  content : String
  createdAt : Nat
deriving Repr, DecidableEq

/-- Result shape of `parseUserReply`. -/
structure ParsedReply where
  progress : String
  completed : Bool
  nextGoal : Option String
  mood : String
deriving Repr, DecidableEq

/-- Result shape of `generateAlphaResponse`. -/
structure AlphaResponse where
  message : String
  askForNextGoal : Bool
deriving Repr, DecidableEq

/-- Result shape of `parseOnboardingReply`. -/
structure OnboardingInfo where
  name : String
  goal : String
  parsed : Bool
  clarificationMessage : Option String
deriving Repr, DecidableEq

/-- The model oracle: each field is one exported function of `ai.ts`, abstracted as
a deterministic function of exactly the data the source passes to it, returning the
declared shape or the error the call would throw (an `AIFailureError` when the
client is unconfigured, otherwise whatever the exhausted or terminal `withRetry`
run rethrows).  Note that `parseOnboardingReply` takes only the single reply text:
the source builds its prompt from `userMessage` alone. -/
structure AIOracle where
  parseUserReply : String → String → Except AIErr ParsedReply
  generateAlphaResponse : String → String → ParsedReply → List EmailMessage → Except AIErr AlphaResponse
  generateConversation : String → String → List EmailMessage → Option String → Except AIErr String
  parseOnboardingReply : String → Except AIErr OnboardingInfo
  generateUserSummary : String → List EmailMessage → Nat → Option String → Nat → Except AIErr String

/-- Run context of one webhook delivery: the oracle, the transport health
(`transport n = some msg` makes the n-th `sendEmail` of the request throw
`Failed to send email: msg`), the calendar day `today` (days since 1970-01-01,
a Thursday) and the timestamp `now`. -/
structure Ctx where
  oracle : AIOracle
  transport : Nat → Option String
  today : Nat
  now : Nat

/-! ## Mail building blocks (`src/lib/resend.ts`) -/

/-- `PUBLIC_APP_URL` with its default. -/
def APP_URL : String := "https://bealphamail.com"

/-- An email handed to the transport (`sendEmail({to, subject, html, text})`). -/
structure SentEmail where
  toAddr : String
  subject : String
  html : String
  text : String
deriving Repr, DecidableEq

/-- The plain-text footer appended by `wrapEmailText`. -/
def EMAIL_FOOTER_TEXT : String :=
  "\n\n—\nsent via alphamail ✉️\n" ++ APP_URL

/-- `wrapEmailText(content)`. -/
def wrapEmailText (content : String) : String :=
  content ++ EMAIL_FOOTER_TEXT

/-- The HTML footer (`EMAIL_FOOTER_HTML`). -/
def EMAIL_FOOTER_HTML : String :=
  "\n  <p style=\"font-size: 12px; color: #9ca3af; margin-top: 32px; padding-top: 16px; border-top: 1px solid #e5e7eb;\">\n    sent via <a href=\"" ++ APP_URL ++ "\" style=\"color: #6b7280; text-decoration: underline;\">alphamail</a> ✉️\n  </p>\n"

/-- `wrapEmailHtml(content)`. -/
def wrapEmailHtml (content : String) : String :=
  "\n    <div style=\"font-family: -apple-system, BlinkMacSystemFont, Segoe UI, Roboto, sans-serif; max-width: 600px; margin: 0 auto; padding: 40px 20px; color: #1a1a1a;\">\n      " ++ content ++ "\n      " ++ EMAIL_FOOTER_HTML ++ "\n    </div>\n  "

/-- `escapeHtml` from the current `resend.ts` revision (that file is not in the
snapshot; this is the conventional entity escaping its name denotes, and no theorem
below depends on its exact output — it only feeds the `html` field of sent mail). -/
def escapeHtmlChar (c : Char) : String :=
  if c = '&' then "&amp;"
  else if c = '<' then "&lt;"
  else if c = '>' then "&gt;"
  else if c = '"' then "&quot;"
  else if c = '\x27' then "&#39;"
  else String.singleton c

/-- Entity-escape a whole string. -/
def escapeHtml (s : String) : String :=
  s.data.foldl (fun acc c => acc ++ escapeHtmlChar c) ""

/-- Uppercase hexadecimal digit. -/
def hexDigitChar (n : Nat) : Char :=
  if n < 10 then Char.ofNat (48 + n) else Char.ofNat (55 + n)

/-- Two-digit uppercase hex rendering of a byte. -/
def hexByte (b : Nat) : String :=
  String.mk [hexDigitChar (b / 16), hexDigitChar (b % 16)]

/-- The characters `encodeURIComponent` leaves unescaped. -/
def isUriUnreserved (c : Char) : Bool :=
  c.isAlphanum || c = '-' || c = '_' || c = '.' || c = '!' || c = '~' || c = '*' ||
  c = '\x27' || c = '(' || c = ')'

/-- JS `encodeURIComponent`: percent-encode every UTF-8 byte of each character
outside the unreserved set, uppercase hex. -/
def encodeURIComponent (s : String) : String :=
  s.data.foldl
    (fun acc c =>
      if isUriUnreserved c then acc ++ String.singleton c
      else acc ++ (utf8Bytes c).foldl (fun a b => a ++ "%" ++ hexByte b) "")
    ""

/-! ## Subject handling -/

/-- JS `s.toLowerCase().startsWith(pat)` for a lowercase literal `pat`, at the
character-list level. -/
def lowerStartsWith (s pat : String) : Bool :=
  pat.data.isPrefixOf (s.data.map Char.toLower)

/-- `(subject || "").replace(/^re:\s*/i, "")`: strip one leading case-insensitive
reply marker together with the whitespace that follows it. -/
def stripReplyMarker (s : String) : String :=
  if lowerStartsWith s "re:" then String.mk ((s.data.drop 3).dropWhile isSpaceChar)
  else s

/-- The normalized subject used by thread resolution:
`(subject || "").replace(/^re:\s*/i, "").trim()`. -/
def cleanSubject (subject : Option String) : String :=
  jsTrim (stripReplyMarker (strOrEmpty subject))

/-- The reply-subject construction used before sending any reply:
`(subject || "").toLowerCase().startsWith("re:") ? subject : "re: " + (subject || dflt)`.
Each call site fixes its own default (`check-in`, `hello`, ...). -/
def replySubject (subject : Option String) (dflt : String) : String :=
  let s := strOrEmpty subject
  if lowerStartsWith s "re:" then s
  else "re: " ++ (if s = "" then dflt else s)

/-! ## Regex models

The handler uses a handful of JS regexes over plain ASCII-ish text.  Each is
modelled as a scanner with the same leftmost-match discipline; the scanners
recurse on an explicit fuel equal to the input length so that they are
structurally recursive and reduce definitionally. -/

/-- The class `[\w.-]` of the CC-address regex. -/
def isEmailChar (c : Char) : Bool :=
  c.isAlphanum || c = '_' || c = '.' || c = '-'

/-- ASCII letter, the class `[a-zA-Z]`. -/
def isAlphaChar (c : Char) : Bool :=
  c.isAlpha

/-- Does the character list have the form `X.A` with `X` nonempty and `A` its
(maximal) trailing ASCII-letter run of length at least two?  This is the shape a
domain prefix must have to complete the pattern `[\w.-]+\.[a-zA-Z]{2,}`. -/
def domainShape (p : List Char) : Bool :=
  let a := (p.reverse.takeWhile isAlphaChar).reverse
  let rest := p.take (p.length - a.length)
  a.length ≥ 2 && rest.length ≥ 2 && rest.getLast? = some '.'

/-- Longest prefix of the post-`@` character run that completes the email regex
(the greedy backtracking of `[\w.-]+\.[a-zA-Z]{2,}`). -/
def domainMatch (r : List Char) : Option (List Char) :=
  (List.range (r.length + 1)).reverse.findSome? fun len =>
    let p := r.take len
    if domainShape p then some p else none

/-- One step of the global scan of `/[\w.-]+@[\w.-]+\.[a-zA-Z]{2,}/g`: at a run of
address characters followed by `@`, the local part is the whole run and the domain
is the longest completing prefix of the run after `@`; on failure the scan resumes
after the `@`, and matches do not overlap. -/
def scanCCGo : Nat → List Char → List String
  | 0, _ => []
  | _ + 1, [] => []
  | fuel + 1, c :: t =>
    if isEmailChar c then
      let run := (c :: t).takeWhile isEmailChar
      let rest := (c :: t).dropWhile isEmailChar
      match rest with
      | '@' :: r2 =>
        let drun := r2.takeWhile isEmailChar
        match domainMatch drun with
        | some d => String.mk (run ++ '@' :: d) :: scanCCGo fuel (r2.drop d.length)
        | none => scanCCGo fuel r2
      | _ => scanCCGo fuel rest
    else scanCCGo fuel t

/-- `parseCCEmails(ccHeader)`: `[]` for a missing header, otherwise every address
matched by the email regex over the header text. -/
def parseCCEmails (ccHeader : Option String) : List String :=
  match ccHeader with
  | none => []
  | some h => scanCCGo h.data.length h.data

/-- JS `.` (no s-flag): any character but a line terminator. -/
def isDotChar (c : Char) : Bool :=
  c ≠ '\n' && c ≠ '\r'

/-- Alternatives of the goal-intent regex, in source order. -/
def goalKeywords : List String :=
  ["goal", "want to", "going to", "plan to", "trying to", "will"]

/-- Try the goal-intent pattern anchored at the head of `l`: a keyword, at least one
whitespace character, then a nonempty same-line capture (`(.+)`). -/
def goalMatchAt (l : List Char) : Option (List Char) :=
  goalKeywords.findSome? fun kw =>
    if kw.data.isPrefixOf l then
      let rest := l.drop kw.length
      if (rest.takeWhile isSpaceChar).isEmpty then none
      else
        let cap := (rest.dropWhile isSpaceChar).takeWhile isDotChar
        if cap.isEmpty then none else some cap
    else none

/-- Leftmost match of `/(?:goal|want to|going to|plan to|trying to|will)\s+(.+)/i`,
returning the capture group; the handler applies it to the lowercased message. -/
def goalMatchGo : Nat → List Char → Option (List Char)
  | 0, _ => none
  | _ + 1, [] => none
  | fuel + 1, c :: t =>
    match goalMatchAt (c :: t) with
    | some cap => some cap
    | none => goalMatchGo fuel t

/-- `userMessage.toLowerCase().match(/(?:goal|want to|going to|plan to|trying to|will)\s+(.+)/i)`,
as the captured group. -/
def goalMatch (lowerMessage : String) : Option String :=
  (goalMatchGo lowerMessage.data.length lowerMessage.data).map String.mk

/-- `/^(yes|yeah|yep|sure|ok|okay|let'?s do it|add them|create.*group)/i` tested
against `lowerMessage.trim()`. -/
def confirmPatternTest (t : String) : Bool :=
  jsStartsWith t "yes" || jsStartsWith t "yeah" || jsStartsWith t "yep" ||
  jsStartsWith t "sure" || jsStartsWith t "ok" || jsStartsWith t "okay" ||
  jsStartsWith t "let\x27s do it" || jsStartsWith t "lets do it" ||
  jsStartsWith t "add them" ||
  (jsStartsWith t "create" && listContains "group".data ((t.data.drop 6).takeWhile isDotChar))

/-- The class `[\w\s,]` of the name-capture regexes. -/
def isNameChar (c : Char) : Bool :=
  c.isAlphanum || c = '_' || isSpaceChar c || c = ','

/-- A dash accepted by the `cc'd` name pattern (hyphen, en or em dash). -/
def isDashChar (c : Char) : Bool :=
  c = '-' || c = '–' || c = '—'

/-- Keywords of the add-names regex, in source order. -/
def addKeywords : List String :=
  ["add", "with", "include"]

/-- Try `/(?:add|with|include)\s+([\w\s,]+)/i` anchored at the head of `l`
(greedy capture). -/
def addMatchAt (l : List Char) : Option (List Char) :=
  addKeywords.findSome? fun kw =>
    if kw.data.isPrefixOf l then
      let rest := l.drop kw.length
      if (rest.takeWhile isSpaceChar).isEmpty then none
      else
        let cap := (rest.dropWhile isSpaceChar).takeWhile isNameChar
        if cap.isEmpty then none else some cap
    else none

/-- Leftmost match of the add-names regex over the lowercased message. -/
def addMatchGo : Nat → List Char → Option (List Char)
  | 0, _ => none
  | _ + 1, [] => none
  | fuel + 1, c :: t =>
    match addMatchAt (c :: t) with
    | some cap => some cap
    | none => addMatchGo fuel t

/-- `lowerMessage.match(/(?:add|with|include)\s+([\w\s,]+)/i)`, as the capture. -/
def addMatch (lowerMessage : String) : Option String :=
  (addMatchGo lowerMessage.data.length lowerMessage.data).map String.mk

/-- Lazy capture of `/cc'd\s+([\w\s,]+?)\s*[-–—]/i` starting right after the
whitespace that follows a `cc'd`: the shortest nonempty name-character block such
that, after optional whitespace, a dash follows.  `steps` bounds the expansion. -/
def lazyNameCapture : Nat → List Char → List Char → Option (List Char)
  | 0, _, _ => none
  | steps + 1, acc, rest =>
    match rest with
    | [] => none
    | c :: t =>
      if isNameChar c then
        let acc2 := acc ++ [c]
        let after := t.dropWhile isSpaceChar
        match after with
        | d :: _ => if isDashChar d then some acc2 else lazyNameCapture steps acc2 t
        | [] => lazyNameCapture steps acc2 t
      else none

/-- Scan for the `cc'd` name pattern over the recent outbound content (the regex is
case-insensitive, so the scan works on the lowercased text). -/
def ccdNameGo : Nat → List Char → Option (List Char)
  | 0, _ => none
  | _ + 1, [] => none
  | fuel + 1, c :: t =>
    let l := c :: t
    (if "cc\x27d".data.isPrefixOf l then
      let rest := l.drop 4
      if (rest.takeWhile isSpaceChar).isEmpty then none
      else lazyNameCapture rest.length [] (rest.dropWhile isSpaceChar)
    else none).orElse fun _ => ccdNameGo fuel t

/-- `recentContent.match(/cc'd\s+([\w\s,]+?)\s*[-–—]/i)`, as the capture. -/
def ccdNameMatch (content : String) : Option String :=
  (ccdNameGo (jsToLower content).data.length (jsToLower content).data).map String.mk

/-- Maximal runs of non-separator characters (how a JS split on a merged
separator class tokenizes, up to empty fragments). -/
def runsSplit (p : Char → Bool) : Nat → List Char → List String
  | 0, _ => []
  | _ + 1, [] => []
  | fuel + 1, c :: t =>
    if p c then runsSplit p fuel t
    else
      String.mk ((c :: t).takeWhile fun x => !p x) ::
        runsSplit p fuel ((c :: t).dropWhile fun x => !p x)

/-- `capture.split(/[,\s]+/).filter(n => n.length > 1)`: the empty fragments a JS
split produces are removed by the same length filter. -/
def splitNames (capture : String) : List String :=
  (runsSplit (fun c => isSpaceChar c || c = ',') capture.data.length capture.data).filter
    fun n => n.length > 1

/-- `n.charAt(0).toUpperCase() + n.slice(1).toLowerCase()`. -/
def capitalizeName (n : String) : String :=
  match n.data with
  | [] => ""
  | c :: t => String.mk (c.toUpper :: t.map Char.toLower)

/-! ## Query and mutation primitives over the store -/

/-- JS truthiness of an optional string (`null`, `undefined` and `""` are falsy). -/
def jsTruthy (o : Option String) : Bool :=
  match o with
  | some s => s ≠ ""
  | none => false

/-- `(s || d)` for a required-string position. -/
def strOrDefault (s : Option String) (d : String) : String :=
  (orStr s (some d)).getD d

/-- Insertion step of the ascending-by-key sort. -/
def insertByKey (key : α → Nat) (x : α) : List α → List α
  | [] => [x]
  | y :: t => if key x ≤ key y then x :: y :: t else y :: insertByKey key x t

/-- Ascending sort by a `Nat` key — the `order("created_at", { ascending: true })`
of the store queries. -/
def sortByKey (key : α → Nat) : List α → List α
  | [] => []
  | x :: t => insertByKey key x (sortByKey key t)

/-- `order("created_at", { ascending: false }).limit(1).single()`: the row with the
greatest key (rows in this store carry pairwise distinct keys, see `Store.WF`). -/
def mostRecentBy (key : α → Nat) (l : List α) : Option α :=
  l.foldl
    (fun acc x =>
      match acc with
      | none => some x
      | some a => if key x > key a then some x else acc)
    none

/-- `.eq("email", senderEmail).single()`: a `.single()` call succeeds only when the
filter matched exactly one row; any other cardinality is an error, which the handler
treats as an absent row. -/
def findUniqueProfile (st : Store) (email : String) : Option ProfileRow :=
  match st.profiles.filter fun p => p.email == email with
  | [p] => some p
  | _ => none

/-- History row shape handed to the model. -/
def EmailRow.toMessage (e : EmailRow) : EmailMessage :=
  ⟨e.direction, e.content, e.createdAt⟩

/-- Thread resolution: if the normalized subject is nonempty, the thread id of the
most recent of the sender's messages whose subject contains it case-insensitively
and whose thread id is non-null; otherwise none.  (The In-Reply-To and References
headers are read by the source but never used.) -/
def resolveThread (st : Store) (userId : Nat) (subject : Option String) : Option Nat :=
  let c := cleanSubject subject
  if c = "" then none
  else
    match mostRecentBy (fun e => e.createdAt)
      (st.emails.filter fun e => e.userId == userId && e.threadId.isSome && containsCI c e.subject) with
    | some e => e.threadId
    | none => none

/-- Conversation context: the thread's messages oldest-first capped at 20, or, with
no thread, the sender's 10 most recent messages put back in ascending order. -/
def conversationHistory (st : Store) (userId : Nat) (threadId : Option Nat) : List EmailMessage :=
  match threadId with
  | some t =>
    ((sortByKey (fun e => e.createdAt) (st.emails.filter fun e => e.threadId == some t)).take 20).map
      EmailRow.toMessage
  | none =>
    (((sortByKey (fun e => e.createdAt) (st.emails.filter fun e => e.userId == userId)).reverse.take
        10).reverse).map EmailRow.toMessage

/-- Insert an `emails` row (`completed` annotations empty); returns the new id. -/
def Store.insertEmail (st : Store) (userId : Nat) (dir : Direction) (subject content : String)
    (threadId : Option Nat) : Store × Nat :=
  let id := st.nextId
  ({ st with
      emails := st.emails ++ [⟨id, userId, dir, subject, content, threadId, id, none, none⟩]
      nextId := id + 1 },
   id)

/-- `update({ thread_id: tid }).eq("id", id)` on `emails`. -/
def Store.updateEmailThread (st : Store) (id tid : Nat) : Store :=
  { st with
      emails := st.emails.map fun e => if e.id == id then { e with threadId := some tid } else e }

/-- `update({ summary, mood }).eq("id", id)` on `emails`. -/
def Store.annotateEmail (st : Store) (id : Nat) (summary mood : String) : Store :=
  { st with
      emails := st.emails.map fun e =>
        if e.id == id then { e with summary := some summary, mood := some mood } else e }

/-- Insert a `goals` row; the database defaults supply `completed = false` and a
null completion timestamp. -/
def Store.insertGoal (st : Store) (userId : Nat) (description : String) (dueDate : Nat) : Store :=
  { st with
      goals := st.goals ++ [⟨st.nextId, userId, description, dueDate, false, none, st.nextId⟩]
      nextId := st.nextId + 1 }

/-- `update({ completed: true, completed_at: now }).eq("id", id)` on `goals`. -/
def Store.completeGoal (st : Store) (id now : Nat) : Store :=
  { st with
      goals := st.goals.map fun g =>
        if g.id == id then { g with completed := true, completedAt := some now } else g }

/-- The active-goal selection: most recently created goal of the sender whose
completion flag is false. -/
def selectActiveGoal (st : Store) (userId : Nat) : Option GoalRow :=
  mostRecentBy (fun g => g.createdAt)
    (st.goals.filter fun g => g.userId == userId && g.completed == false)

/-- Insert a `pending_emails` row; returns the new id. -/
def Store.insertPending (st : Store) (email subject content : String) (threadId : Option Nat) :
    Store × Nat :=
  let id := st.nextId
  ({ st with
      pendingEmails := st.pendingEmails ++ [⟨id, email, subject, content, threadId, id⟩]
      nextId := id + 1 },
   id)

/-- `update({ thread_id: tid }).eq("id", id)` on `pending_emails`. -/
def Store.updatePendingThread (st : Store) (id tid : Nat) : Store :=
  { st with
      pendingEmails := st.pendingEmails.map fun p =>
        if p.id == id then { p with threadId := some tid } else p }

/-- `delete().eq("email", email)` on `pending_emails`. -/
def Store.deletePendingByEmail (st : Store) (email : String) : Store :=
  { st with pendingEmails := st.pendingEmails.filter fun p => p.email != email }

/-- `update({ first_name, onboarded: true }).eq("user_id", userId)` on `profiles`. -/
def Store.updateProfileOnboard (st : Store) (userId : Nat) (name : String) : Store :=
  { st with
      profiles := st.profiles.map fun p =>
        if p.userId == userId then { p with firstName := some name, onboarded := true } else p }

/-- `update({ summary }).eq("user_id", userId)` on `profiles`. -/
def Store.updateProfileSummary (st : Store) (userId : Nat) (summary : String) : Store :=
  { st with
      profiles := st.profiles.map fun p =>
        if p.userId == userId then { p with summary := some summary } else p }

/-- `supabase.auth.admin.updateUserById(userId, { email_confirm: true })`. -/
def Store.confirmUser (st : Store) (userId : Nat) : Store :=
  { st with confirmedUsers := st.confirmedUsers ++ [userId] }

/-- Insert a `groups` row; returns the new id. -/
def Store.insertGroup (st : Store) (createdBy : Nat) : Store × Nat :=
  let id := st.nextId
  ({ st with groups := st.groups ++ [⟨id, createdBy⟩], nextId := id + 1 }, id)

/-- Insert a `group_members` row. -/
def Store.insertGroupMember (st : Store) (groupId userId : Nat) : Store :=
  { st with groupMembers := st.groupMembers ++ [⟨groupId, userId⟩] }

/-! ## Dates -/

/-- JS `Date.prototype.getDay` of a day number (0 = Sunday; 1970-01-01 was a
Thursday, weekday 4). -/
def jsWeekday (d : Nat) : Nat :=
  (d + 4) % 7

/-- `nextSunday.setDate(nextSunday.getDate() + (7 - nextSunday.getDay()))`: the due
date every goal-creation site computes. -/
def nextSunday (today : Nat) : Nat :=
  today + (7 - jsWeekday today)

/-- One week in milliseconds (`7 * 24 * 60 * 60 * 1000`). -/
def WEEK_MS : Nat := 7 * 24 * 60 * 60 * 1000

/-! ## The run state and the transport -/

/-- Mutable state of one request: the store, the emails delivered so far, and the
count of send attempts (the index into the transport health function). -/
structure RunSt where
  store : Store
  sent : List SentEmail
  sendCount : Nat
deriving Repr

/-- `sendEmail(...)`: deliver or throw `Failed to send email: ...`.  A thrown error
carries the run state at the throw, since the JS side effects already performed are
not rolled back. -/
def sendEmailOp (c : Ctx) (r : RunSt) (m : SentEmail) : Except (RunSt × String) RunSt :=
  match c.transport r.sendCount with
  | none => .ok { r with sent := r.sent ++ [m], sendCount := r.sendCount + 1 }
  | some msg =>
    .error ({ r with sendCount := r.sendCount + 1 }, "Failed to send email: " ++ msg)

/-! ## HTTP responses -/

/-- A JSON value occurring in a handler response body. -/
inductive JVal where
  | b : Bool → JVal
  | s : String → JVal
  | pr : ParsedReply → JVal
  | tid : Option Nat → JVal
deriving Repr, DecidableEq

/-- A handler response: status code and JSON object body as a field list. -/
structure HttpResponse where
  status : Nat
  body : List (String × JVal)
deriving Repr, DecidableEq

/-! ## Webhook request shape -/

/-- The `data` of a Resend `email.received` event, as destructured by the handler.
`fromEmail` is the distilled `from?.email || from` sender address. -/
structure EventData where
  fromEmail : Option String
  subject : Option String
  text : Option String
  html : Option String
  cc : Option String
  headerCcLower : Option String
  headerCcUpper : Option String
deriving Repr

/-- The webhook payload `{ type, data }`. -/
structure Payload where
  type : String
  data : EventData
deriving Repr

/-- A delivery as seen after signature verification (`verifyResendWebhook` is the
external verification capability; `verified` is its verdict on this request). -/
structure WebhookRequest where
  verified : Bool
  payload : Payload
deriving Repr

/-! ## Mail builders -/

/-- The standard reply body: greeting paragraph, the (escaped) body, signature. -/
def stdBodyHtml (safeFirstName safeBody : String) : String :=
  "\n        <p style=\"font-size: 16px; line-height: 1.6; margin-bottom: 16px;\">yo " ++
    safeFirstName ++
    "</p>\n        <p style=\"font-size: 16px; line-height: 1.6; margin-bottom: 16px; white-space: pre-wrap;\">" ++
    safeBody ++
    "</p>\n        <p style=\"font-size: 16px; color: #6b7280;\">- alpha</p>\n      "

/-- The standard reply mail of the onboarded paths. -/
def mkStdMail (toA rs firstName bodyText : String) : SentEmail :=
  { toAddr := toA
    subject := rs
    html := wrapEmailHtml (stdBodyHtml (escapeHtml firstName) (escapeHtml bodyText))
    text := wrapEmailText ("yo " ++ firstName ++ "\n\n" ++ bodyText ++ "\n\n- alpha") }

/-- The fixed, non-AI-generated fallback body of `sendFallbackEmail`. -/
def fallbackResponseText : String :=
  "hey, i got your message but i\x27m having a bit of trouble processing it right now. can you try sending that again in a few minutes?\n\nsorry about that - sometimes my brain needs a quick reboot."

/-- The mail composed by `sendFallbackEmail(email, firstName, subject)`. -/
def fallbackMail (email firstName : String) (subject : Option String) : SentEmail :=
  mkStdMail email (replySubject subject "check-in") firstName fallbackResponseText

/-- `sendFallbackEmail`: compose the fixed fallback and hand it to the transport.
It performs no store write. -/
def sendFallbackEmail (c : Ctx) (r : RunSt) (email firstName : String)
    (subject : Option String) : Except (RunSt × String) RunSt :=
  sendEmailOp c r (fallbackMail email firstName subject)

/-- Response returned after a fallback mail. -/
def fallbackSentResponse : HttpResponse :=
  ⟨200, [("success", .b true), ("action", .s "fallback_sent")]⟩

/-- Scanner of `replaceFirst`. -/
def replaceFirstGo (pat rep : List Char) : Nat → List Char → List Char
  | 0, l => l
  | _ + 1, [] => []
  | fuel + 1, c :: t =>
    if pat.isPrefixOf (c :: t) then rep ++ (c :: t).drop pat.length
    else c :: replaceFirstGo pat rep fuel t

/-- First occurrence replacement, JS `s.replace(pat, rep)` with a string pattern. -/
def replaceFirst (s pat rep : String) : String :=
  if pat.data.isEmpty then s
  else String.mk (replaceFirstGo pat.data rep.data s.data.length s.data)

/-- Intro body for a first-contact unknown sender. -/
def introTextFirst (senderEmail : String) : String :=
  "yo! i\x27m alpha, your ai accountability partner.\n\ni help people actually follow through on their goals by checking in every sunday. no app, no complicated system - just email.\n\nwant to try it? sign up here and we can keep chatting:\n" ++
    APP_URL ++ "/signup?email=" ++ encodeURIComponent senderEmail ++
    "\n\nonce you\x27re in, just tell me what you want to accomplish this week and i\x27ll hold you to it."

/-- Reminder body for a repeat-contact unknown sender. -/
def introTextAgain (senderEmail : String) : String :=
  "hey again! looks like you haven\x27t signed up yet.\n\ni\x27d love to keep chatting, but i need you to create an account first so i can remember our conversations and actually help you with your goals.\n\nit takes 30 seconds:\n" ++
    APP_URL ++ "/signup?email=" ++ encodeURIComponent senderEmail ++
    "\n\nsee you on the other side."

/-- The intro/reminder mail of the unknown-sender path; the html swaps the raw
signup link for an anchor. -/
def introMail (senderEmail rs responseText : String) : SentEmail :=
  let link := APP_URL ++ "/signup?email=" ++ encodeURIComponent senderEmail
  { toAddr := senderEmail
    subject := rs
    html := wrapEmailHtml
      ("\n    <p style=\"font-size: 16px; line-height: 1.6; margin-bottom: 16px;\">yo!</p>\n    <p style=\"font-size: 16px; line-height: 1.6; margin-bottom: 16px; white-space: pre-wrap;\">" ++
        replaceFirst responseText link
          ("<a href=\"" ++ link ++ "\" style=\"color: #2563eb;\">" ++ APP_URL ++ "/signup</a>") ++
        "</p>\n    <p style=\"font-size: 16px; color: #6b7280;\">- alpha</p>\n  ")
    text := wrapEmailText ("yo!\n\n" ++ responseText ++ "\n\n- alpha") }

/-- Default clarification when the extraction supplies none. -/
def onboardingClarificationDefault : String :=
  "hmm, i couldn\x27t quite catch that. can you reply with your name and a goal for this week? like: \x27i\x27m jamie. my goal is to run 3 times.\x27"

/-- Clarification mail of the onboarding path (no greeting paragraph). -/
def clarificationMail (senderEmail rs clarification : String) : SentEmail :=
  { toAddr := senderEmail
    subject := rs
    html := wrapEmailHtml
      ("\n        <p style=\"font-size: 16px; line-height: 1.6; margin-bottom: 16px; white-space: pre-wrap;\">" ++
        escapeHtml clarification ++
        "</p>\n        <p style=\"font-size: 16px; color: #6b7280;\">- alpha</p>\n      ")
    text := wrapEmailText (clarification ++ "\n\n- alpha") }

/-- Welcome body (plain-text form) after onboarding completes. -/
def welcomeText (firstName goalDescription : String) : String :=
  "nice to meet you, " ++ firstName ++ "! you\x27re all set. ✅\n\nyour goal: " ++
    goalDescription ++
    "\n\ni\x27ll check in with you sunday to see how it went. just reply to that email when it comes.\n\nuntil then, go crush it."

/-- Welcome mail after onboarding completes. -/
def welcomeMail (senderEmail rs firstName goalDescription : String) : SentEmail :=
  { toAddr := senderEmail
    subject := rs
    html := wrapEmailHtml
      ("\n      <p style=\"font-size: 16px; line-height: 1.6; margin-bottom: 16px;\">yo " ++
        escapeHtml firstName ++
        "!</p>\n      <p style=\"font-size: 16px; line-height: 1.6; margin-bottom: 16px;\">nice to meet you! you\x27re all set. ✅</p>\n      <p style=\"font-size: 16px; line-height: 1.6; margin-bottom: 16px;\">your goal: <strong>" ++
        escapeHtml goalDescription ++
        "</strong></p>\n      <p style=\"font-size: 16px; line-height: 1.6; margin-bottom: 16px;\">i\x27ll check in with you sunday to see how it went. just reply to that email when it comes.</p>\n      <p style=\"font-size: 16px; line-height: 1.6; margin-bottom: 16px;\">until then, go crush it.</p>\n      <p style=\"font-size: 16px; color: #6b7280;\">- alpha</p>\n    ")
    text := wrapEmailText (welcomeText firstName goalDescription ++ "\n\n- alpha") }

/-- Fallback body of the onboarding catch handler. -/
def onboardingFallbackText : String :=
  "hey! i got your reply but had a little trouble processing it. can you try again? just tell me your name and a goal for this week."

/-- Fallback mail of the onboarding catch handler. -/
def onboardingFallbackMail (senderEmail rs : String) : SentEmail :=
  { toAddr := senderEmail
    subject := rs
    html := wrapEmailHtml
      ("\n      <p style=\"font-size: 16px; line-height: 1.6; margin-bottom: 16px; white-space: pre-wrap;\">" ++
        escapeHtml onboardingFallbackText ++
        "</p>\n      <p style=\"font-size: 16px; color: #6b7280;\">- alpha</p>\n    ")
    text := wrapEmailText (onboardingFallbackText ++ "\n\n- alpha") }

/-! ## Sub-handlers -/

/-- `handleCCUsers`: pure note computation from profiles and group membership. -/
def handleCCUsers (st : Store) (senderUserId : Nat) (ccEmails : List String) : String :=
  if ccEmails.isEmpty then ""
  else
    let existingUsers := st.profiles.filter fun p => ccEmails.contains p.email
    let nonUsers := ccEmails.filter fun e => !existingUsers.any fun u => u.email == e
    let ccNote :=
      if !nonUsers.isEmpty then
        "btw, i noticed you cc\x27d " ++
          String.intercalate ", " (nonUsers.map beforeAt) ++
          ". if you want them to join our accountability sessions, tell them to sign up at " ++
          APP_URL ++ " and then we can do group goals together."
      else ""
    if existingUsers.isEmpty then ccNote
    else
      let userNames := String.intercalate ", "
        (existingUsers.map fun u =>
          let fn := u.firstName.getD ""
          if fn = "" then beforeAt u.email else fn)
      match (st.groupMembers.filter fun m => m.userId == senderUserId).head? with
      | some g =>
        let groupUserIds := (st.groupMembers.filter fun m => m.groupId == g.groupId).map
          fun m => m.userId
        let ccUserIds := existingUsers.map fun u => u.userId
        if !(ccUserIds.all fun i => groupUserIds.contains i) then
          "i see you cc\x27d " ++ userNames ++
            " - they\x27re already using alphamail! want to start a group accountability session together? just reply \"yes\" and i\x27ll set it up."
        else ccNote
      | none =>
        "i see you cc\x27d " ++ userNames ++
          " - they\x27re already using alphamail! want to start a group accountability session together? just reply \"yes, add " ++
          userNames ++ "\" and i\x27ll set it up."

/-- Result of `checkAndCreateGroup`. -/
structure GroupResult where
  created : Bool
  groupNote : String
deriving Repr, DecidableEq

/-- `checkAndCreateGroup`: confirmation-pattern test, recent-outbound context test,
name extraction, profile lookup, then group + membership creation. -/
def checkAndCreateGroup (st : Store) (userId : Nat) (userMessage : String) :
    Store × GroupResult :=
  let lowerMessage := jsToLower userMessage
  if !confirmPatternTest (jsTrim lowerMessage) then (st, ⟨false, ""⟩)
  else
    let recentEmails :=
      (sortByKey (fun e => e.createdAt)
          (st.emails.filter fun e =>
            e.userId == userId && e.direction == Direction.outbound)).reverse.take 3
    let recentContent := String.intercalate " " (recentEmails.map fun e => e.content)
    if !(containsSub "group accountability" recentContent ||
        containsSub "group goals" recentContent ||
        containsSub "cc\x27d" recentContent) then (st, ⟨false, ""⟩)
    else
      let targetNames0 :=
        match addMatch lowerMessage with
        | some cap => splitNames cap
        | none => []
      let targetNames :=
        if targetNames0.isEmpty then
          match ccdNameMatch recentContent with
          | some cap => splitNames cap
          | none => []
        else targetNames0
      if targetNames.isEmpty then (st, ⟨false, ""⟩)
      else
        let wanted := targetNames.map capitalizeName
        let targetProfiles := st.profiles.filter fun p =>
          match p.firstName with
          | some n => wanted.contains n
          | none => false
        if targetProfiles.isEmpty then (st, ⟨false, ""⟩)
        else
          let (st1, gid) := st.insertGroup userId
          let st2 := st1.insertGroupMember gid userId
          let st3 := targetProfiles.foldl (fun s p => s.insertGroupMember gid p.userId) st2
          let memberNames := String.intercalate " and "
            (targetProfiles.map fun p => p.firstName.getD "")
          (st3,
           ⟨true,
            "done! i\x27ve created an accountability group with you and " ++ memberNames ++
              ". i\x27ll check in with all of you together on sundays now. you can reply-all to keep everyone in the loop, or just reply to me directly if you want to chat 1:1."⟩)

/-- `updateUserSummary`, the fire-and-forget background regeneration, sequenced here
at its spawn point; every failure inside it is swallowed, and a model failure skips
the profile update. -/
def updateUserSummary (c : Ctx) (st : Store) (userId : Nat) (firstName : String) : Store :=
  let emails := (sortByKey (fun e => e.createdAt) (st.emails.filter fun e => e.userId == userId)).take 50
  let goals := st.goals.filter fun g => g.userId == userId
  match st.profiles.filter fun p => p.userId == userId with
  | [profile] =>
    let completedGoals := (goals.filter fun g => g.completed).length
    let currentGoal := goals.find? fun g => !g.completed
    -- Math.max(1, Math.ceil((now - createdAt) / WEEK_MS)); truncated subtraction
    -- makes a profile created in the future yield 1, as the JS does.
    let weeksActive := max 1 ((c.now - profile.createdAt + (WEEK_MS - 1)) / WEEK_MS)
    match c.oracle.generateUserSummary firstName (emails.map EmailRow.toMessage) completedGoals
        (currentGoal.map fun g => g.description) weeksActive with
    | .ok summary => st.updateProfileSummary userId summary
    | .error _ => st
  | _ => st

/-- `handleNonAuthenticatedUser`: store the provisional message, seed its thread key,
send intro or reminder, answer `intro_sent`. -/
def handleNonAuthenticatedUser (c : Ctx) (r : RunSt) (senderEmail : String)
    (subject : Option String) (userMessage : String) :
    Except (RunSt × String) (RunSt × HttpResponse) := do
  let st := r.store
  let existingPending :=
    mostRecentBy (fun p => p.createdAt) (st.pendingEmails.filter fun p => p.email == senderEmail)
  let inherited := existingPending.bind fun p => p.threadId
  let (st1, pid) := st.insertPending senderEmail (strOrDefault subject "No subject") userMessage
    inherited
  let st2 := if inherited.isNone then st1.updatePendingThread pid pid else st1
  let rs := replySubject subject "hello"
  let isFirstEmail := existingPending.isNone
  let responseText := if isFirstEmail then introTextFirst senderEmail else introTextAgain senderEmail
  let r1 ← sendEmailOp c { r with store := st2 } (introMail senderEmail rs responseText)
  return (r1,
    ⟨200, [("success", .b true), ("action", .s "intro_sent"), ("isFirstEmail", .b isFirstEmail)]⟩)

/-- The try block of `handleOnboardingReply`. -/
def handleOnboardingReplyTry (c : Ctx) (r : RunSt) (userId : Nat) (senderEmail : String)
    (subject : Option String) (userMessage rs : String) :
    Except (RunSt × String) (RunSt × HttpResponse) :=
  match c.oracle.parseOnboardingReply userMessage with
  | .error e => .error (r, e.message)
  | .ok onboarding =>
    if !onboarding.parsed then do
      let clarification := strOrDefault onboarding.clarificationMessage
        onboardingClarificationDefault
      let r1 ← sendEmailOp c r (clarificationMail senderEmail rs clarification)
      let st1 := (r1.store.insertEmail userId .inbound (strOrDefault subject "onboarding")
        userMessage none).1
      let st2 := (st1.insertEmail userId .outbound rs clarification none).1
      return ({ r1 with store := st2 },
        ⟨200, [("success", .b true), ("action", .s "onboarding_clarification")]⟩)
    else do
      let firstName := onboarding.name
      let goalDescription := onboarding.goal
      let st1 := r.store.updateProfileOnboard userId firstName
      let st2 := st1.confirmUser userId
      let st3 := st2.insertGoal userId goalDescription (nextSunday c.today)
      let pendings := st3.pendingEmails.filter fun p => p.email == senderEmail
      let st4 := pendings.foldl
        (fun s pe => (s.insertEmail userId .inbound pe.subject pe.content none).1) st3
      let st5 := if pendings.isEmpty then st4 else st4.deletePendingByEmail senderEmail
      let r1 ← sendEmailOp c { r with store := st5 }
        (welcomeMail senderEmail rs firstName goalDescription)
      let st6 := (r1.store.insertEmail userId .inbound (strOrDefault subject "onboarding")
        userMessage none).1
      let st7 := (st6.insertEmail userId .outbound rs (welcomeText firstName goalDescription)
        none).1
      return ({ r1 with store := st7 },
        ⟨200, [("success", .b true), ("action", .s "onboarding_complete")]⟩)

/-- `handleOnboardingReply` with its catch: any failure in the try block (model or
transport) degrades to the onboarding fallback mail. -/
def handleOnboardingReply (c : Ctx) (r : RunSt) (userId : Nat) (senderEmail : String)
    (subject : Option String) (userMessage : String) :
    Except (RunSt × String) (RunSt × HttpResponse) :=
  let rs := replySubject subject "let\x27s get you set up"
  match handleOnboardingReplyTry c r userId senderEmail subject userMessage rs with
  | .ok res => .ok res
  | .error (r2, _msg) => do
    let r3 ← sendEmailOp c r2 (onboardingFallbackMail senderEmail rs)
    return (r3, ⟨200, [("success", .b true), ("action", .s "onboarding_fallback")]⟩)

/-- The onboarded-sender flow: thread resolution, history, inbound insert, group
confirmation check, then conversation or check-in extraction, with the fallback
mail on any model failure. -/
def mainPath (c : Ctx) (r : RunSt) (profile : ProfileRow) (subject : Option String)
    (userMessage : String) (ccEmails : List String) :
    Except (RunSt × String) (RunSt × HttpResponse) := do
  let firstName := strOrDefault profile.firstName "there"
  let ccNote := if ccEmails.length > 0 then handleCCUsers r.store profile.userId ccEmails else ""
  let threadId0 := resolveThread r.store profile.userId subject
  let history := conversationHistory r.store profile.userId threadId0
  let (st1, inId) := r.store.insertEmail profile.userId .inbound
    (strOrDefault subject "No subject") userMessage threadId0
  let (st2, threadId) :=
    if threadId0.isNone then (st1.updateEmailThread inId inId, some inId) else (st1, threadId0)
  let currentGoal := selectActiveGoal st2 profile.userId
  let rs := replySubject subject "check-in"
  let (st3, groupResult) := checkAndCreateGroup st2 profile.userId userMessage
  if groupResult.created then
    let mail := mkStdMail profile.email rs firstName groupResult.groupNote
    let r1 ← sendEmailOp c { r with store := st3 } mail
    let st4 := (r1.store.insertEmail profile.userId .outbound rs groupResult.groupNote threadId).1
    return ({ r1 with store := st4 },
      ⟨200, [("success", .b true), ("action", .s "group_created")]⟩)
  else
    match currentGoal with
    | none =>
      -- No active goal: open-ended conversation, plus the lexical goal-intent scan.
      match c.oracle.generateConversation firstName userMessage history none with
      | .error _ => do
        let r1 ← sendFallbackEmail c { r with store := st3 } profile.email firstName subject
        return (r1, fallbackSentResponse)
      | .ok alphaResponse => do
        let (st4, responseText) :=
          match goalMatch (jsToLower userMessage) with
          | some cap =>
            (st3.insertGoal profile.userId (jsSubstring (jsTrim cap) 200) (nextSunday c.today),
             alphaResponse ++ "\n\ngot it, i\x27ll check in with you sunday on that.")
          | none => (st3, alphaResponse)
        let responseText2 := if ccNote = "" then responseText else responseText ++ "\n\n" ++ ccNote
        let r1 ← sendEmailOp c { r with store := st4 } (mkStdMail profile.email rs firstName responseText2)
        let st5 := (r1.store.insertEmail profile.userId .outbound rs responseText2 threadId).1
        let st6 := updateUserSummary c st5 profile.userId firstName
        return ({ r1 with store := st6 },
          ⟨200, [("success", .b true), ("action", .s "conversation")]⟩)
    | some goal =>
      -- Active goal: check-in extraction.
      match c.oracle.parseUserReply userMessage goal.description with
      | .error _ => do
        let r1 ← sendFallbackEmail c { r with store := st3 } profile.email firstName subject
        return (r1, fallbackSentResponse)
      | .ok parsed => do
        let st4 := if parsed.completed then st3.completeGoal goal.id c.now else st3
        let st5 :=
          if jsTruthy parsed.nextGoal then
            st4.insertGoal profile.userId (parsed.nextGoal.getD "") (nextSunday c.today)
          else st4
        let st6 := st5.annotateEmail inId parsed.progress parsed.mood
        match c.oracle.generateAlphaResponse firstName goal.description parsed history with
        | .error _ => do
          let r1 ← sendFallbackEmail c { r with store := st6 } profile.email firstName subject
          return (r1, fallbackSentResponse)
        | .ok alphaResponse => do
          let t1 :=
            if alphaResponse.askForNextGoal then
              alphaResponse.message ++ "\n\nso what\x27s your goal for this week?"
            else if jsTruthy parsed.nextGoal then
              alphaResponse.message ++ "\n\ngot it. your new goal: " ++
                parsed.nextGoal.getD "" ++ ". i\x27ll check in sunday."
            else alphaResponse.message
          let t2 := if ccNote = "" then t1 else t1 ++ "\n\n" ++ ccNote
          let r1 ← sendEmailOp c { r with store := st6 } (mkStdMail profile.email rs firstName t2)
          let st7 := (r1.store.insertEmail profile.userId .outbound rs t2 threadId).1
          let st8 := updateUserSummary c st7 profile.userId firstName
          return ({ r1 with store := st8 },
            ⟨200, [("success", .b true), ("parsed", .pr parsed), ("threadId", .tid threadId)]⟩)

/-- The dispatch of `POST` up to the outer catch. -/
def postBody (c : Ctx) (st : Store) (req : WebhookRequest) :
    Except (RunSt × String) (RunSt × HttpResponse) :=
  let r0 : RunSt := ⟨st, [], 0⟩
  if !req.verified then
    .ok (r0, ⟨401, [("error", .s "Invalid webhook signature")]⟩)
  else if req.payload.type ≠ "email.received" then
    .ok (r0, ⟨200, [("message", .s "Ignored event type")]⟩)
  else
    let d := req.payload.data
    match orStr d.fromEmail none with
    | none => .ok (r0, ⟨400, [("error", .s "No sender email")]⟩)
    | some senderEmail =>
      let userMessage := (orStr d.text (orStr d.html none)).getD ""
      let ccEmails := parseCCEmails (orStr d.cc (orStr d.headerCcLower d.headerCcUpper))
      match findUniqueProfile st senderEmail with
      | some profile =>
        if !profile.onboarded then
          handleOnboardingReply c r0 profile.userId senderEmail d.subject userMessage
        else
          mainPath c r0 profile d.subject userMessage ccEmails
      | none => handleNonAuthenticatedUser c r0 senderEmail d.subject userMessage

/-- The full `POST` handler: dispatch plus the outer catch that swallows every
internal error into the generic 500 body. -/
def POST (c : Ctx) (st : Store) (req : WebhookRequest) : RunSt × HttpResponse :=
  match postBody c st req with
  | .ok res => res
  | .error (r, _msg) => (r, ⟨500, [("error", .s "Internal server error")]⟩)

/-! ## Well-formedness and sequences of deliveries -/

/-- Well-formedness of a store: ids and creation stamps live below the counter and
are pairwise distinct per table.  Every store reachable from an empty one through
the insert primitives satisfies this. -/
def Store.WF (st : Store) : Prop :=
  (∀ e ∈ st.emails, e.id < st.nextId ∧ e.createdAt < st.nextId) ∧
  (st.emails.map fun e => e.id).Nodup ∧
  (st.emails.map fun e => e.createdAt).Nodup ∧
  (∀ g ∈ st.goals, g.id < st.nextId ∧ g.createdAt < st.nextId) ∧
  (st.goals.map fun g => g.id).Nodup ∧
  (st.goals.map fun g => g.createdAt).Nodup ∧
  (∀ p ∈ st.pendingEmails, p.id < st.nextId ∧ p.createdAt < st.nextId) ∧
  (st.pendingEmails.map fun p => p.id).Nodup

instance (st : Store) : Decidable st.WF := by
  unfold Store.WF
  infer_instance

/-- Sequential processing of a list of deliveries (each webhook request is handled
start-to-finish on its own; coordination is only through the store). -/
def processAll (st : Store) : List (Ctx × WebhookRequest) → Store
  | [] => st
  | (c, req) :: rest => processAll (POST c st req).1.store rest

/-- Observation: the HTTP response of a dispatch outcome, exactly as `POST`
materializes it (the outer catch maps every internal error to the generic 500). -/
def respOf (o : Except (RunSt × String) (RunSt × HttpResponse)) : HttpResponse :=
  match o with
  | .ok (_, resp) => resp
  | .error _ => ⟨500, [("error", .s "Internal server error")]⟩

/-- Observation: the emails delivered by a dispatch outcome. -/
def sentOf (o : Except (RunSt × String) (RunSt × HttpResponse)) : List SentEmail :=
  match o with
  | .ok (r, _) => r.sent
  | .error (r, _) => r.sent

/-- Observation: the store of a dispatch outcome — the committed one on success,
the one carried by the throw on failure (`POST` keeps exactly this store). -/
def stOf (o : Except (RunSt × String) (RunSt × HttpResponse)) : Store :=
  match o with
  | .ok (r, _) => r.store
  | .error (r, _) => r.store

/-- Goal id `gid` is already allocated and frozen complete at stamp `t`: every
`goals` row carrying that id is marked completed with `completed_at = t`. -/
def CompletedFrozen (st : Store) (gid t : Nat) : Prop :=
  gid < st.nextId ∧
    ∀ g ∈ st.goals, g.id = gid → g.completed = true ∧ g.completedAt = some t

instance (st : Store) (gid t : Nat) : Decidable (CompletedFrozen st gid t) := by
  unfold CompletedFrozen
  infer_instance

/-- The `emails` row with id `i` exists, is keyed to its own thread (its thread id
is its own id), and is allocated below the counter. -/
def ThreadSelfRow (st : Store) (i : Nat) : Prop :=
  i < st.nextId ∧ (∃ e ∈ st.emails, e.id = i ∧ e.threadId = some i) ∧
    ∀ e ∈ st.emails, e.id = i → e.threadId = some i

/-- Every goals row with id at least `n` (the rows allocated from counter value
`n` on) carries the due date `due`. -/
def GoalsDueOK (n due : Nat) (st : Store) : Prop :=
  ∀ g ∈ st.goals, n ≤ g.id → g.dueDate = due

/-- The closed list of response bodies the handler can materialize: the three
fixed dispatch rejections, the seven fixed success shapes (one carrying the
`isFirstEmail` flag), the check-in success body carrying `parsed` and `threadId`
but no `action` tag, and the generic 500 of the outer catch.  No other body — in
particular no internal exception, transport, or provider error text — ever
reaches the caller. -/
def AllowedResponse (resp : HttpResponse) : Prop :=
  resp = ⟨401, [("error", .s "Invalid webhook signature")]⟩ ∨
  resp = ⟨200, [("message", .s "Ignored event type")]⟩ ∨
  resp = ⟨400, [("error", .s "No sender email")]⟩ ∨
  (∃ b : Bool, resp = ⟨200, [("success", .b true), ("action", .s "intro_sent"),
    ("isFirstEmail", .b b)]⟩) ∨
  resp = ⟨200, [("success", .b true), ("action", .s "onboarding_clarification")]⟩ ∨
  resp = ⟨200, [("success", .b true), ("action", .s "onboarding_complete")]⟩ ∨
  resp = ⟨200, [("success", .b true), ("action", .s "onboarding_fallback")]⟩ ∨
  resp = ⟨200, [("success", .b true), ("action", .s "group_created")]⟩ ∨
  resp = ⟨200, [("success", .b true), ("action", .s "conversation")]⟩ ∨
  resp = fallbackSentResponse ∨
  (∃ (p : ParsedReply) (tid : Option Nat),
    resp = ⟨200, [("success", .b true), ("parsed", .pr p), ("threadId", .tid tid)]⟩) ∨
  resp = ⟨500, [("error", .s "Internal server error")]⟩

/-! ## Concrete fixtures for witnesses and counterexamples -/

/-- A provider failure that is not an authorization failure (an overloaded 529). -/
def overloadedErr : AIErr := ⟨some 529, "Error", "Overloaded"⟩

/-- A model call that fails on every attempt with `overloadedErr`. -/
def alwaysFailCall : Nat → Except AIErr Unit := fun _ => Except.error overloadedErr

/-- An oracle whose every operation succeeds with fixed output (a completed goal,
no next goal). -/
def okOracle : AIOracle :=
  { parseUserReply := fun _ _ => .ok ⟨"made progress", true, none, "positive"⟩
    generateAlphaResponse := fun _ _ _ _ => .ok ⟨"nice work", false⟩
    generateConversation := fun _ _ _ _ => .ok "sounds good"
    parseOnboardingReply := fun _ => .ok ⟨"Sam", "run 3 times", true, none⟩
    generateUserSummary := fun _ _ _ _ _ => .ok "journey summary" }

/-- An oracle whose every operation fails with `overloadedErr`. -/
def downOracle : AIOracle :=
  { parseUserReply := fun _ _ => .error overloadedErr
    generateAlphaResponse := fun _ _ _ _ => .error overloadedErr
    generateConversation := fun _ _ _ _ => .error overloadedErr
    parseOnboardingReply := fun _ => .error overloadedErr
    generateUserSummary := fun _ _ _ _ _ => .error overloadedErr }

/-- A run context with a healthy transport; day 10 is a Sunday. -/
def mkCtx (o : AIOracle) : Ctx :=
  ⟨o, fun _ => none, 10, 5000⟩

/-- A verified `email.received` request with no CC material. -/
def mkReq (sender subject text : String) : WebhookRequest :=
  ⟨true, ⟨"email.received", ⟨some sender, some subject, some text, none, none, none, none⟩⟩⟩

/-- An onboarded profile. -/
def joProfile : ProfileRow := ⟨1, some "Jo", "jo@x.com", true, none, 0⟩

/-- An active (not completed) goal of that profile. -/
def joGoal : GoalRow := ⟨2, 1, "run 3 times", 14, false, none, 2⟩

/-- Store with one onboarded sender holding one active goal. -/
def checkinStore : Store :=
  ⟨[joProfile], [], [joGoal], [], [], [], [], 3⟩

/-- Store with one onboarded sender, one goal already completed (at time 77) and
one active goal. -/
def replayStore : Store :=
  ⟨[joProfile], [], [⟨2, 1, "write 500 words", 14, true, some 77, 2⟩, ⟨3, 1, "run 3 times", 14, false, none, 3⟩], [], [], [], [], 4⟩

/-- A not-yet-onboarded profile. -/
def samProfile : ProfileRow := ⟨1, none, "sam@x.com", false, none, 0⟩

/-- Store with the pending sender and an empty history. -/
def pendingStoreNoHistory : Store :=
  ⟨[samProfile], [], [], [], [], [], [], 9⟩

/-- Same store, but the first onboarding turn (which carried the name) is in the
message history. -/
def pendingStoreWithHistory : Store :=
  ⟨[samProfile], [⟨5, 1, Direction.inbound, "onboarding", "hey, i am sam", none, 5, none, none⟩],
   [], [], [], [], [], 9⟩

/-- Store with no account rows at all. -/
def emptyStore : Store :=
  ⟨[], [], [], [], [], [], [], 1⟩

/-- The spec scenario: an unknown sender writes in. -/
def reqJane : WebhookRequest := mkReq "jane@x.com" "hi" "I want to try this"

/-- A check-in reply from the onboarded sender. -/
def reqCheckin : WebhookRequest := mkReq "jo@x.com" "hi" "did it and felt great"

/-- A check-in reply opening with an affirmation: the confirmation pattern
matches, but with no recent outbound group context the group shortcut still does
not fire. -/
def reqCheckinYes : WebhookRequest := mkReq "jo@x.com" "hi" "yes, i did it"

/-- An onboarding turn carrying only the goal (the name was given one turn
earlier). -/
def reqSamTurn2 : WebhookRequest := mkReq "sam@x.com" "re: welcome" "my goal is to run 3 times"

/-! # Theorems

First a bank of shared helper lemmas, then one theorem per claim (with its
witness or counterexample where required). -/

/-! ## Retry wrapper lemmas -/

theorem withRetryGo_eval {α : Type} (fn : Nat → Except AIErr α) (attempt rem : Nat) :
    withRetryGo fn attempt (rem + 1) =
      match fn attempt with
      | .ok v => ⟨.ok v, attempt + 1, []⟩
      | .error e =>
        if isAuthError e then ⟨.error e, attempt + 1, []⟩
        else if rem = 0 then ⟨.error e, attempt + 1, []⟩
        else
          let r := withRetryGo fn (attempt + 1) rem
          ⟨r.result, r.attempts, INITIAL_DELAY_MS * 2 ^ attempt :: r.delays⟩ := rfl

theorem withRetryGo_ok {α : Type} {fn : Nat → Except AIErr α} {attempt : Nat} {v : α}
    (rem : Nat) (h : fn attempt = .ok v) :
    withRetryGo fn attempt (rem + 1) = ⟨.ok v, attempt + 1, []⟩ := by
  rw [withRetryGo_eval, h]

theorem withRetryGo_auth {α : Type} {fn : Nat → Except AIErr α} {attempt : Nat} {e : AIErr}
    (rem : Nat) (h : fn attempt = .error e) (ha : isAuthError e = true) :
    withRetryGo fn attempt (rem + 1) = ⟨.error e, attempt + 1, []⟩ := by
  rw [withRetryGo_eval, h]
  simp [ha]

theorem withRetryGo_final {α : Type} {fn : Nat → Except AIErr α} {attempt : Nat} {e : AIErr}
    (h : fn attempt = .error e) (ha : isAuthError e = false) :
    withRetryGo fn attempt (0 + 1) = ⟨.error e, attempt + 1, []⟩ := by
  rw [withRetryGo_eval, h]
  simp [ha]

theorem withRetryGo_step {α : Type} {fn : Nat → Except AIErr α} {attempt : Nat} {e : AIErr}
    (rem : Nat) (h : fn attempt = .error e) (ha : isAuthError e = false) (hrem : rem ≠ 0) :
    withRetryGo fn attempt (rem + 1) =
      ⟨(withRetryGo fn (attempt + 1) rem).result, (withRetryGo fn (attempt + 1) rem).attempts,
        INITIAL_DELAY_MS * 2 ^ attempt :: (withRetryGo fn (attempt + 1) rem).delays⟩ := by
  rw [withRetryGo_eval, h]
  simp [ha, hrem]

theorem withRetry_ok0 {α : Type} {fn : Nat → Except AIErr α} {v : α} (h : fn 0 = .ok v) :
    withRetry fn = ⟨.ok v, 1, []⟩ := by
  show withRetryGo fn 0 (2 + 1) = _
  exact withRetryGo_ok 2 h

theorem withRetry_auth0 {α : Type} {fn : Nat → Except AIErr α} {e : AIErr}
    (h : fn 0 = .error e) (ha : isAuthError e = true) :
    withRetry fn = ⟨.error e, 1, []⟩ := by
  show withRetryGo fn 0 (2 + 1) = _
  exact withRetryGo_auth 2 h ha

theorem withRetry_ok1 {α : Type} {fn : Nat → Except AIErr α} {e0 : AIErr} {v : α}
    (h0 : fn 0 = .error e0) (a0 : isAuthError e0 = false) (h1 : fn 1 = .ok v) :
    withRetry fn = ⟨.ok v, 2, [1000]⟩ := by
  show withRetryGo fn 0 (2 + 1) = _
  rw [withRetryGo_step 2 h0 a0 (by decide)]
  have h1e : withRetryGo fn (0 + 1) 2 = (⟨.ok v, 2, []⟩ : RetryResult α) := withRetryGo_ok 1 h1
  rw [h1e]
  simp [INITIAL_DELAY_MS]

theorem withRetry_auth1 {α : Type} {fn : Nat → Except AIErr α} {e0 e1 : AIErr}
    (h0 : fn 0 = .error e0) (a0 : isAuthError e0 = false)
    (h1 : fn 1 = .error e1) (a1 : isAuthError e1 = true) :
    withRetry fn = ⟨.error e1, 2, [1000]⟩ := by
  show withRetryGo fn 0 (2 + 1) = _
  rw [withRetryGo_step 2 h0 a0 (by decide)]
  have h1e : withRetryGo fn (0 + 1) 2 = (⟨.error e1, 2, []⟩ : RetryResult α) :=
    withRetryGo_auth 1 h1 a1
  rw [h1e]
  simp [INITIAL_DELAY_MS]

theorem withRetry_ok2 {α : Type} {fn : Nat → Except AIErr α} {e0 e1 : AIErr} {v : α}
    (h0 : fn 0 = .error e0) (a0 : isAuthError e0 = false)
    (h1 : fn 1 = .error e1) (a1 : isAuthError e1 = false) (h2 : fn 2 = .ok v) :
    withRetry fn = ⟨.ok v, 3, [1000, 2000]⟩ := by
  show withRetryGo fn 0 (2 + 1) = _
  rw [withRetryGo_step 2 h0 a0 (by decide)]
  have h1e : withRetryGo fn (0 + 1) 2 =
      (⟨(withRetryGo fn 2 1).result, (withRetryGo fn 2 1).attempts,
        INITIAL_DELAY_MS * 2 ^ 1 :: (withRetryGo fn 2 1).delays⟩ : RetryResult α) :=
    withRetryGo_step 1 h1 a1 (by decide)
  rw [h1e]
  have h2e : withRetryGo fn 2 1 = (⟨.ok v, 3, []⟩ : RetryResult α) := withRetryGo_ok 0 h2
  rw [h2e]
  simp [INITIAL_DELAY_MS]

theorem withRetry_auth2 {α : Type} {fn : Nat → Except AIErr α} {e0 e1 e2 : AIErr}
    (h0 : fn 0 = .error e0) (a0 : isAuthError e0 = false)
    (h1 : fn 1 = .error e1) (a1 : isAuthError e1 = false)
    (h2 : fn 2 = .error e2) (a2 : isAuthError e2 = true) :
    withRetry fn = ⟨.error e2, 3, [1000, 2000]⟩ := by
  show withRetryGo fn 0 (2 + 1) = _
  rw [withRetryGo_step 2 h0 a0 (by decide)]
  have h1e : withRetryGo fn (0 + 1) 2 =
      (⟨(withRetryGo fn 2 1).result, (withRetryGo fn 2 1).attempts,
        INITIAL_DELAY_MS * 2 ^ 1 :: (withRetryGo fn 2 1).delays⟩ : RetryResult α) :=
    withRetryGo_step 1 h1 a1 (by decide)
  rw [h1e]
  have h2e : withRetryGo fn 2 1 = (⟨.error e2, 3, []⟩ : RetryResult α) := withRetryGo_auth 0 h2 a2
  rw [h2e]
  simp [INITIAL_DELAY_MS]

theorem withRetry_exhaust {α : Type} {fn : Nat → Except AIErr α} {e0 e1 e2 : AIErr}
    (h0 : fn 0 = .error e0) (a0 : isAuthError e0 = false)
    (h1 : fn 1 = .error e1) (a1 : isAuthError e1 = false)
    (h2 : fn 2 = .error e2) (a2 : isAuthError e2 = false) :
    withRetry fn = ⟨.error e2, 3, [1000, 2000]⟩ := by
  show withRetryGo fn 0 (2 + 1) = _
  rw [withRetryGo_step 2 h0 a0 (by decide)]
  have h1e : withRetryGo fn (0 + 1) 2 =
      (⟨(withRetryGo fn 2 1).result, (withRetryGo fn 2 1).attempts,
        INITIAL_DELAY_MS * 2 ^ 1 :: (withRetryGo fn 2 1).delays⟩ : RetryResult α) :=
    withRetryGo_step 1 h1 a1 (by decide)
  rw [h1e]
  have h2e : withRetryGo fn 2 1 = (⟨.error e2, 3, []⟩ : RetryResult α) := withRetryGo_final h2 a2
  rw [h2e]
  simp [INITIAL_DELAY_MS]

/-- C3: every `withRetry`-wrapped model call makes at most 3 attempts; every
non-final attempt failed with a retryable (non-authorization) error; a run that
stops before the bound stopped on a success or on a 401/403 error, which is
propagated with no further attempt; and the delay awaited before the retry that
follows the k-th failed attempt is `1000 * 2 ^ k` milliseconds. -/
theorem retry_policy_bounded_backoff {α : Type} (fn : Nat → Except AIErr α) :
    (1 ≤ (withRetry fn).attempts ∧ (withRetry fn).attempts ≤ 3) ∧
    (withRetry fn).delays =
      (List.range ((withRetry fn).attempts - 1)).map (fun k => INITIAL_DELAY_MS * 2 ^ k) ∧
    (∀ k, k + 1 < (withRetry fn).attempts →
      ∃ e, fn k = Except.error e ∧ isAuthError e = false) ∧
    ((withRetry fn).attempts < 3 →
      (∃ v, fn ((withRetry fn).attempts - 1) = Except.ok v) ∨
      (∃ e, fn ((withRetry fn).attempts - 1) = Except.error e ∧ isAuthError e = true)) ∧
    (withRetry fn).result = fn ((withRetry fn).attempts - 1) := by
  cases h0 : fn 0 with
  | ok v =>
    rw [withRetry_ok0 h0]; dsimp only
    exact ⟨⟨by norm_num, by norm_num⟩, by simp, fun k hk => absurd hk (by omega),
      fun _ => Or.inl ⟨v, h0⟩, h0.symm⟩
  | error e0 =>
    cases a0 : isAuthError e0 with
    | true =>
      rw [withRetry_auth0 h0 a0]; dsimp only
      exact ⟨⟨by norm_num, by norm_num⟩, by simp, fun k hk => absurd hk (by omega),
        fun _ => Or.inr ⟨e0, h0, a0⟩, h0.symm⟩
    | false =>
      cases h1 : fn 1 with
      | ok v =>
        rw [withRetry_ok1 h0 a0 h1]; dsimp only
        refine ⟨⟨by norm_num, by norm_num⟩, by decide, ?_, fun _ => Or.inl ⟨v, h1⟩, h1.symm⟩
        intro k hk
        have hk0 : k = 0 := by omega
        subst hk0
        exact ⟨e0, h0, a0⟩
      | error e1 =>
        cases a1 : isAuthError e1 with
        | true =>
          rw [withRetry_auth1 h0 a0 h1 a1]; dsimp only
          refine ⟨⟨by norm_num, by norm_num⟩, by decide, ?_, fun _ => Or.inr ⟨e1, h1, a1⟩,
            h1.symm⟩
          intro k hk
          have hk0 : k = 0 := by omega
          subst hk0
          exact ⟨e0, h0, a0⟩
        | false =>
          have hk01 : ∀ k : Nat, k + 1 < 3 →
              ∃ e, fn k = Except.error e ∧ isAuthError e = false := by
            intro k hk
            have : k = 0 ∨ k = 1 := by omega
            rcases this with h | h <;> subst h
            · exact ⟨e0, h0, a0⟩
            · exact ⟨e1, h1, a1⟩
          cases h2 : fn 2 with
          | ok v =>
            rw [withRetry_ok2 h0 a0 h1 a1 h2]; dsimp only
            exact ⟨⟨by norm_num, by norm_num⟩, by decide, hk01, fun h => absurd h (by omega),
              h2.symm⟩
          | error e2 =>
            cases a2 : isAuthError e2 with
            | true =>
              rw [withRetry_auth2 h0 a0 h1 a1 h2 a2]; dsimp only
              exact ⟨⟨by norm_num, by norm_num⟩, by decide, hk01, fun h => absurd h (by omega),
                h2.symm⟩
            | false =>
              rw [withRetry_exhaust h0 a0 h1 a1 h2 a2]
              dsimp only
              exact ⟨⟨by norm_num, by norm_num⟩, by decide, hk01, fun h => absurd h (by omega),
                h2.symm⟩

/-- C4 (amended): when all three attempts fail with retryable errors, `withRetry`
rethrows the raw last provider error itself — it does not wrap it into the
distinguished `AIFailureError` kind. -/
theorem retry_exhaustion_propagates_raw_error {α : Type} (fn : Nat → Except AIErr α)
    (e0 e1 e2 : AIErr)
    (h0 : fn 0 = .error e0) (a0 : isAuthError e0 = false)
    (h1 : fn 1 = .error e1) (a1 : isAuthError e1 = false)
    (h2 : fn 2 = .error e2) (a2 : isAuthError e2 = false) :
    (withRetry fn).result = Except.error e2 ∧ (withRetry fn).attempts = 3 := by
  rw [withRetry_exhaust h0 a0 h1 a1 h2 a2]
  exact ⟨rfl, rfl⟩

/-- Witness for the amended C4 theorem at a concrete always-failing call. -/
theorem retry_exhaustion_propagates_raw_error_witness :
    (withRetry alwaysFailCall).result = Except.error overloadedErr ∧
    (withRetry alwaysFailCall).attempts = 3 :=
  retry_exhaustion_propagates_raw_error alwaysFailCall overloadedErr overloadedErr overloadedErr
    rfl (by decide) rfl (by decide) rfl (by decide)

/-- C4 counterexample: a run that exhausts all retries on 529 overload errors
propagates an error whose kind is the provider error itself, not the
`AIFailureError` failure kind the claim names. -/
theorem retry_exhaustion_not_AIFailure_counterexample :
    (withRetry alwaysFailCall).result = Except.error overloadedErr ∧
    overloadedErr.name ≠ "AIFailureError" ∧
    (AIFailureError "AI not configured").name = "AIFailureError" := by
  refine ⟨?_, by decide, rfl⟩
  rw [withRetry_exhaust (rfl : alwaysFailCall 0 = Except.error overloadedErr) (by decide)
    (rfl : alwaysFailCall 1 = Except.error overloadedErr) (by decide)
    (rfl : alwaysFailCall 2 = Except.error overloadedErr) (by decide)]

/-! ## Frame lemmas for the store primitives -/

@[simp] theorem insertEmail_goals (st : Store) (u : Nat) (d : Direction) (s c : String)
    (t : Option Nat) : (st.insertEmail u d s c t).1.goals = st.goals := rfl

@[simp] theorem insertEmail_pendings (st : Store) (u : Nat) (d : Direction) (s c : String)
    (t : Option Nat) : (st.insertEmail u d s c t).1.pendingEmails = st.pendingEmails := rfl

@[simp] theorem insertEmail_profiles (st : Store) (u : Nat) (d : Direction) (s c : String)
    (t : Option Nat) : (st.insertEmail u d s c t).1.profiles = st.profiles := rfl

@[simp] theorem insertEmail_nextId (st : Store) (u : Nat) (d : Direction) (s c : String)
    (t : Option Nat) : (st.insertEmail u d s c t).1.nextId = st.nextId + 1 := rfl

@[simp] theorem insertEmail_emails (st : Store) (u : Nat) (d : Direction) (s c : String)
    (t : Option Nat) :
    (st.insertEmail u d s c t).1.emails =
      st.emails ++ [⟨st.nextId, u, d, s, c, t, st.nextId, none, none⟩] := rfl

@[simp] theorem insertEmail_id (st : Store) (u : Nat) (d : Direction) (s c : String)
    (t : Option Nat) : (st.insertEmail u d s c t).2 = st.nextId := rfl

@[simp] theorem updateEmailThread_goals (st : Store) (i t : Nat) :
    (st.updateEmailThread i t).goals = st.goals := rfl

@[simp] theorem updateEmailThread_pendings (st : Store) (i t : Nat) :
    (st.updateEmailThread i t).pendingEmails = st.pendingEmails := rfl

@[simp] theorem updateEmailThread_profiles (st : Store) (i t : Nat) :
    (st.updateEmailThread i t).profiles = st.profiles := rfl

@[simp] theorem updateEmailThread_nextId (st : Store) (i t : Nat) :
    (st.updateEmailThread i t).nextId = st.nextId := rfl

@[simp] theorem annotateEmail_goals (st : Store) (i : Nat) (s m : String) :
    (st.annotateEmail i s m).goals = st.goals := rfl

@[simp] theorem annotateEmail_pendings (st : Store) (i : Nat) (s m : String) :
    (st.annotateEmail i s m).pendingEmails = st.pendingEmails := rfl

@[simp] theorem annotateEmail_profiles (st : Store) (i : Nat) (s m : String) :
    (st.annotateEmail i s m).profiles = st.profiles := rfl

@[simp] theorem annotateEmail_nextId (st : Store) (i : Nat) (s m : String) :
    (st.annotateEmail i s m).nextId = st.nextId := rfl

@[simp] theorem insertGoal_goals (st : Store) (u : Nat) (d : String) (due : Nat) :
    (st.insertGoal u d due).goals =
      st.goals ++ [⟨st.nextId, u, d, due, false, none, st.nextId⟩] := rfl

@[simp] theorem insertGoal_emails (st : Store) (u : Nat) (d : String) (due : Nat) :
    (st.insertGoal u d due).emails = st.emails := rfl

@[simp] theorem insertGoal_pendings (st : Store) (u : Nat) (d : String) (due : Nat) :
    (st.insertGoal u d due).pendingEmails = st.pendingEmails := rfl

@[simp] theorem insertGoal_profiles (st : Store) (u : Nat) (d : String) (due : Nat) :
    (st.insertGoal u d due).profiles = st.profiles := rfl

@[simp] theorem insertGoal_nextId (st : Store) (u : Nat) (d : String) (due : Nat) :
    (st.insertGoal u d due).nextId = st.nextId + 1 := rfl

@[simp] theorem completeGoal_goals (st : Store) (i now : Nat) :
    (st.completeGoal i now).goals =
      st.goals.map fun g =>
        if g.id == i then { g with completed := true, completedAt := some now } else g := rfl

@[simp] theorem completeGoal_emails (st : Store) (i now : Nat) :
    (st.completeGoal i now).emails = st.emails := rfl

@[simp] theorem completeGoal_pendings (st : Store) (i now : Nat) :
    (st.completeGoal i now).pendingEmails = st.pendingEmails := rfl

@[simp] theorem completeGoal_profiles (st : Store) (i now : Nat) :
    (st.completeGoal i now).profiles = st.profiles := rfl

@[simp] theorem completeGoal_nextId (st : Store) (i now : Nat) :
    (st.completeGoal i now).nextId = st.nextId := rfl

@[simp] theorem insertPending_goals (st : Store) (e s c : String) (t : Option Nat) :
    (st.insertPending e s c t).1.goals = st.goals := rfl

@[simp] theorem insertPending_emails (st : Store) (e s c : String) (t : Option Nat) :
    (st.insertPending e s c t).1.emails = st.emails := rfl

@[simp] theorem insertPending_profiles (st : Store) (e s c : String) (t : Option Nat) :
    (st.insertPending e s c t).1.profiles = st.profiles := rfl

@[simp] theorem insertPending_nextId (st : Store) (e s c : String) (t : Option Nat) :
    (st.insertPending e s c t).1.nextId = st.nextId + 1 := rfl

@[simp] theorem insertPending_pendings (st : Store) (e s c : String) (t : Option Nat) :
    (st.insertPending e s c t).1.pendingEmails =
      st.pendingEmails ++ [⟨st.nextId, e, s, c, t, st.nextId⟩] := rfl

@[simp] theorem insertPending_id (st : Store) (e s c : String) (t : Option Nat) :
    (st.insertPending e s c t).2 = st.nextId := rfl

@[simp] theorem updatePendingThread_goals (st : Store) (i t : Nat) :
    (st.updatePendingThread i t).goals = st.goals := rfl

@[simp] theorem updatePendingThread_emails (st : Store) (i t : Nat) :
    (st.updatePendingThread i t).emails = st.emails := rfl

@[simp] theorem updatePendingThread_profiles (st : Store) (i t : Nat) :
    (st.updatePendingThread i t).profiles = st.profiles := rfl

@[simp] theorem updatePendingThread_nextId (st : Store) (i t : Nat) :
    (st.updatePendingThread i t).nextId = st.nextId := rfl

@[simp] theorem deletePendingByEmail_goals (st : Store) (e : String) :
    (st.deletePendingByEmail e).goals = st.goals := rfl

@[simp] theorem deletePendingByEmail_emails (st : Store) (e : String) :
    (st.deletePendingByEmail e).emails = st.emails := rfl

@[simp] theorem deletePendingByEmail_profiles (st : Store) (e : String) :
    (st.deletePendingByEmail e).profiles = st.profiles := rfl

@[simp] theorem deletePendingByEmail_nextId (st : Store) (e : String) :
    (st.deletePendingByEmail e).nextId = st.nextId := rfl

@[simp] theorem updateProfileOnboard_goals (st : Store) (u : Nat) (n : String) :
    (st.updateProfileOnboard u n).goals = st.goals := rfl

@[simp] theorem updateProfileOnboard_emails (st : Store) (u : Nat) (n : String) :
    (st.updateProfileOnboard u n).emails = st.emails := rfl

@[simp] theorem updateProfileOnboard_pendings (st : Store) (u : Nat) (n : String) :
    (st.updateProfileOnboard u n).pendingEmails = st.pendingEmails := rfl

@[simp] theorem updateProfileOnboard_nextId (st : Store) (u : Nat) (n : String) :
    (st.updateProfileOnboard u n).nextId = st.nextId := rfl

@[simp] theorem updateProfileSummary_goals (st : Store) (u : Nat) (s : String) :
    (st.updateProfileSummary u s).goals = st.goals := rfl

@[simp] theorem updateProfileSummary_emails (st : Store) (u : Nat) (s : String) :
    (st.updateProfileSummary u s).emails = st.emails := rfl

@[simp] theorem updateProfileSummary_pendings (st : Store) (u : Nat) (s : String) :
    (st.updateProfileSummary u s).pendingEmails = st.pendingEmails := rfl

@[simp] theorem updateProfileSummary_nextId (st : Store) (u : Nat) (s : String) :
    (st.updateProfileSummary u s).nextId = st.nextId := rfl

@[simp] theorem confirmUser_goals (st : Store) (u : Nat) :
    (st.confirmUser u).goals = st.goals := rfl

@[simp] theorem confirmUser_emails (st : Store) (u : Nat) :
    (st.confirmUser u).emails = st.emails := rfl

@[simp] theorem confirmUser_pendings (st : Store) (u : Nat) :
    (st.confirmUser u).pendingEmails = st.pendingEmails := rfl

@[simp] theorem confirmUser_profiles (st : Store) (u : Nat) :
    (st.confirmUser u).profiles = st.profiles := rfl

@[simp] theorem confirmUser_nextId (st : Store) (u : Nat) :
    (st.confirmUser u).nextId = st.nextId := rfl

@[simp] theorem insertGroup_goals (st : Store) (u : Nat) :
    (st.insertGroup u).1.goals = st.goals := rfl

@[simp] theorem insertGroup_emails (st : Store) (u : Nat) :
    (st.insertGroup u).1.emails = st.emails := rfl

@[simp] theorem insertGroup_pendings (st : Store) (u : Nat) :
    (st.insertGroup u).1.pendingEmails = st.pendingEmails := rfl

@[simp] theorem insertGroup_profiles (st : Store) (u : Nat) :
    (st.insertGroup u).1.profiles = st.profiles := rfl

@[simp] theorem insertGroup_nextId (st : Store) (u : Nat) :
    (st.insertGroup u).1.nextId = st.nextId + 1 := rfl

@[simp] theorem insertGroupMember_goals (st : Store) (g u : Nat) :
    (st.insertGroupMember g u).goals = st.goals := rfl

@[simp] theorem insertGroupMember_emails (st : Store) (g u : Nat) :
    (st.insertGroupMember g u).emails = st.emails := rfl

@[simp] theorem insertGroupMember_pendings (st : Store) (g u : Nat) :
    (st.insertGroupMember g u).pendingEmails = st.pendingEmails := rfl

@[simp] theorem insertGroupMember_profiles (st : Store) (g u : Nat) :
    (st.insertGroupMember g u).profiles = st.profiles := rfl

@[simp] theorem insertGroupMember_nextId (st : Store) (g u : Nat) :
    (st.insertGroupMember g u).nextId = st.nextId := rfl

/-! ## Frame lemmas for composite helpers -/

@[simp] theorem foldl_igm_goals (l : List ProfileRow) (gid : Nat) (s0 : Store) :
    (l.foldl (fun s p => s.insertGroupMember gid p.userId) s0).goals = s0.goals := by
  induction l generalizing s0 with
  | nil => rfl
  | cons p t ih => simpa [Store.insertGroupMember] using ih _

@[simp] theorem foldl_igm_emails (l : List ProfileRow) (gid : Nat) (s0 : Store) :
    (l.foldl (fun s p => s.insertGroupMember gid p.userId) s0).emails = s0.emails := by
  induction l generalizing s0 with
  | nil => rfl
  | cons p t ih => simpa [Store.insertGroupMember] using ih _

@[simp] theorem foldl_igm_pendings (l : List ProfileRow) (gid : Nat) (s0 : Store) :
    (l.foldl (fun s p => s.insertGroupMember gid p.userId) s0).pendingEmails =
      s0.pendingEmails := by
  induction l generalizing s0 with
  | nil => rfl
  | cons p t ih => simpa [Store.insertGroupMember] using ih _

@[simp] theorem foldl_igm_profiles (l : List ProfileRow) (gid : Nat) (s0 : Store) :
    (l.foldl (fun s p => s.insertGroupMember gid p.userId) s0).profiles = s0.profiles := by
  induction l generalizing s0 with
  | nil => rfl
  | cons p t ih => simpa [Store.insertGroupMember] using ih _

@[simp] theorem foldl_igm_nextId (l : List ProfileRow) (gid : Nat) (s0 : Store) :
    (l.foldl (fun s p => s.insertGroupMember gid p.userId) s0).nextId = s0.nextId := by
  induction l generalizing s0 with
  | nil => rfl
  | cons p t ih => simpa [Store.insertGroupMember] using ih _

set_option maxHeartbeats 1000000 in
theorem checkAndCreateGroup_frame (st : Store) (u : Nat) (m : String) :
    (checkAndCreateGroup st u m).1.goals = st.goals ∧
    (checkAndCreateGroup st u m).1.emails = st.emails ∧
    (checkAndCreateGroup st u m).1.pendingEmails = st.pendingEmails ∧
    (checkAndCreateGroup st u m).1.profiles = st.profiles ∧
    st.nextId ≤ (checkAndCreateGroup st u m).1.nextId := by
  unfold checkAndCreateGroup
  dsimp only
  repeat' split
  all_goals refine ⟨?_, ?_, ?_, ?_, ?_⟩
  all_goals simp

theorem checkAndCreateGroup_not_confirmed (st : Store) (u : Nat) (m : String)
    (h : confirmPatternTest (jsTrim (jsToLower m)) = false) :
    checkAndCreateGroup st u m = (st, ⟨false, ""⟩) := by
  unfold checkAndCreateGroup
  simp [h]

theorem updateUserSummary_frame (c : Ctx) (st : Store) (u : Nat) (fn : String) :
    (updateUserSummary c st u fn).goals = st.goals ∧
    (updateUserSummary c st u fn).emails = st.emails ∧
    (updateUserSummary c st u fn).pendingEmails = st.pendingEmails ∧
    (updateUserSummary c st u fn).nextId = st.nextId := by
  unfold updateUserSummary
  dsimp only
  repeat' split
  all_goals exact ⟨rfl, rfl, rfl, rfl⟩

theorem sendEmailOp_ok_state {c : Ctx} {r r2 : RunSt} {m : SentEmail}
    (h : sendEmailOp c r m = .ok r2) :
    r2.store = r.store ∧ r2.sent = r.sent ++ [m] ∧ r2.sendCount = r.sendCount + 1 := by
  unfold sendEmailOp at h
  split at h
  · cases h
    exact ⟨rfl, rfl, rfl⟩
  · cases h

theorem sendEmailOp_error_state {c : Ctx} {r r2 : RunSt} {m : SentEmail} {msg : String}
    (h : sendEmailOp c r m = .error (r2, msg)) :
    r2.store = r.store ∧ r2.sent = r.sent := by
  unfold sendEmailOp at h
  split at h
  · cases h
  · cases h
    exact ⟨rfl, rfl⟩

theorem sendEmailOp_of_transport {c : Ctx} {r : RunSt} (m : SentEmail)
    (h : c.transport r.sendCount = none) :
    sendEmailOp c r m = .ok { r with sent := r.sent ++ [m], sendCount := r.sendCount + 1 } := by
  unfold sendEmailOp
  rw [h]

theorem bindSendEmail_ok {β : Type} {c : Ctx} {s : Store} {sent : List SentEmail} {n : Nat}
    (m : SentEmail) (ht : c.transport n = none) (k : RunSt → Except (RunSt × String) β) :
    (sendEmailOp c ⟨s, sent, n⟩ m >>= k) = k ⟨s, sent ++ [m], n + 1⟩ := by
  unfold sendEmailOp
  dsimp only
  rw [ht]
  rfl

theorem bindSendEmail_err {β : Type} {c : Ctx} {s : Store} {sent : List SentEmail} {n : Nat}
    {msg : String} (m : SentEmail) (ht : c.transport n = some msg)
    (k : RunSt → Except (RunSt × String) β) :
    (sendEmailOp c ⟨s, sent, n⟩ m >>= k) =
      .error (⟨s, sent, n + 1⟩, "Failed to send email: " ++ msg) := by
  unfold sendEmailOp
  dsimp only
  rw [ht]
  rfl

/-! ## List helpers -/

theorem map_id_of_mem {α : Type} {l : List α} {f : α → α} (h : ∀ x ∈ l, f x = x) :
    l.map f = l := by
  induction l with
  | nil => rfl
  | cons x t ih =>
    simp only [List.map_cons, h x (List.mem_cons_self x t)]
    rw [ih fun y hy => h y (List.mem_cons_of_mem x hy)]

theorem mostRecentBy_go {α : Type} (key : α → Nat) (l : List α) (a : α) :
    ∃ b, l.foldl
        (fun acc x =>
          match acc with
          | none => some x
          | some y => if key x > key y then some x else acc)
        (some a) = some b ∧
      (b = a ∨ b ∈ l) ∧ key a ≤ key b ∧ ∀ x ∈ l, key x ≤ key b := by
  induction l generalizing a with
  | nil => exact ⟨a, rfl, Or.inl rfl, Nat.le_refl _, by simp⟩
  | cons x t ih =>
    by_cases hx : key x > key a
    · obtain ⟨b, hfold, hmem, hle, hall⟩ := ih x
      refine ⟨b, ?_, ?_, ?_, ?_⟩
      · simpa [hx] using hfold
      · rcases hmem with h | h
        · exact Or.inr (h ▸ List.mem_cons_self x t)
        · exact Or.inr (List.mem_cons_of_mem x h)
      · exact Nat.le_trans (Nat.le_of_lt hx) hle
      · intro y hy
        rcases List.mem_cons.mp hy with h | h
        · exact h ▸ hle
        · exact hall y h
    · obtain ⟨b, hfold, hmem, hle, hall⟩ := ih a
      refine ⟨b, ?_, ?_, hle, ?_⟩
      · simpa [hx] using hfold
      · rcases hmem with h | h
        · exact Or.inl h
        · exact Or.inr (List.mem_cons_of_mem x h)
      · intro y hy
        rcases List.mem_cons.mp hy with h | h
        · subst h
          exact Nat.le_trans (Nat.le_of_not_lt hx) hle
        · exact hall y h

theorem mostRecentBy_spec {α : Type} (key : α → Nat) (l : List α) :
    (l = [] ∧ mostRecentBy key l = none) ∨
    (∃ b, mostRecentBy key l = some b ∧ b ∈ l ∧ ∀ x ∈ l, key x ≤ key b) := by
  cases l with
  | nil => exact Or.inl ⟨rfl, rfl⟩
  | cons x t =>
    obtain ⟨b, hfold, hmem, hle, hall⟩ := mostRecentBy_go key t x
    refine Or.inr ⟨b, hfold, ?_, ?_⟩
    · rcases hmem with h | h
      · exact h ▸ List.mem_cons_self x t
      · exact List.mem_cons_of_mem x h
    · intro y hy
      rcases List.mem_cons.mp hy with h | h
      · exact h ▸ hle
      · exact hall y h

theorem mostRecentBy_mem {α : Type} {key : α → Nat} {l : List α} {b : α}
    (h : mostRecentBy key l = some b) : b ∈ l ∧ ∀ x ∈ l, key x ≤ key b := by
  rcases mostRecentBy_spec key l with ⟨_, hnone⟩ | ⟨b2, heq, hmem, hall⟩
  · rw [h] at hnone
    cases hnone
  · rw [h] at heq
    cases heq
    exact ⟨hmem, hall⟩

/-- Evaluation of the unknown-sender path on a healthy transport: the exact run
state and response it returns. -/
theorem handleNonAuth_eval (c : Ctx) (r : RunSt) (sender : String) (subject : Option String)
    (msg : String)
    (ht : c.transport r.sendCount = none)
    (hpend : ∀ p ∈ r.store.pendingEmails, p.id < r.store.nextId) :
    handleNonAuthenticatedUser c r sender subject msg =
      .ok
        ({ store :=
            { r.store with
                pendingEmails := r.store.pendingEmails ++
                  [⟨r.store.nextId, sender, strOrDefault subject "No subject", msg,
                    if ((mostRecentBy (fun p => p.createdAt)
                          (r.store.pendingEmails.filter fun p => p.email == sender)).bind
                        fun p => p.threadId).isNone then
                      some r.store.nextId
                    else
                      (mostRecentBy (fun p => p.createdAt)
                          (r.store.pendingEmails.filter fun p => p.email == sender)).bind
                        fun p => p.threadId,
                    r.store.nextId⟩]
                nextId := r.store.nextId + 1 }
           sent := r.sent ++ [introMail sender (replySubject subject "hello")
              (if (mostRecentBy (fun p => p.createdAt)
                    (r.store.pendingEmails.filter fun p => p.email == sender)).isNone then
                introTextFirst sender
              else introTextAgain sender)]
           sendCount := r.sendCount + 1 },
         ⟨200, [("success", .b true), ("action", .s "intro_sent"),
           ("isFirstEmail", .b (mostRecentBy (fun p => p.createdAt)
              (r.store.pendingEmails.filter fun p => p.email == sender)).isNone)]⟩) := by
  have hmap : ∀ tid : Nat,
      r.store.pendingEmails.map
        (fun p => if p.id == r.store.nextId then { p with threadId := some tid } else p) =
      r.store.pendingEmails := by
    intro tid
    apply map_id_of_mem
    intro p hp
    have : p.id ≠ r.store.nextId := Nat.ne_of_lt (hpend p hp)
    simp [this]
  unfold handleNonAuthenticatedUser
  cases hmr : mostRecentBy (fun p => p.createdAt)
      (r.store.pendingEmails.filter fun p => p.email == sender) with
  | none =>
    simp only [hmr, Option.bind, Option.isNone, Store.insertPending, Store.updatePendingThread,
      if_true, ite_true]
    rw [List.map_append, hmap]
    simp only [List.map_cons, List.map_nil, beq_self_eq_true, ite_true]
    rw [bindSendEmail_ok _ ht]
    rfl
  | some p =>
    cases hti : p.threadId with
    | none =>
      simp only [hmr, hti, Option.bind, Option.isNone, Store.insertPending,
        Store.updatePendingThread, if_true, ite_true]
      rw [List.map_append, hmap]
      simp only [List.map_cons, List.map_nil, beq_self_eq_true, ite_true]
      rw [bindSendEmail_ok _ ht]
      rfl
    | some t =>
      simp only [hmr, hti, Option.bind, Option.isNone, Store.insertPending,
        Store.updatePendingThread, if_true, ite_true, Bool.false_eq_true, ite_false]
      rw [bindSendEmail_ok _ ht]
      rfl

/-- C7: an inbound message from a sender with no account record stores exactly one
provisional (pending) message keyed by the sender address, sends the introductory
(first contact) or reminder (repeat contact) email whose body carries the signup
link with the URL-encoded sender address, answers `intro_sent` with `isFirstEmail`
true exactly on first contact, and neither creates nor mutates any Goal (or other
account) record. -/
theorem unknown_sender_intro_path (c : Ctx) (st : Store) (req : WebhookRequest)
    (sender : String)
    (hwf : st.WF)
    (hver : req.verified = true)
    (htype : req.payload.type = "email.received")
    (hsender : orStr req.payload.data.fromEmail none = some sender)
    (hnoacct : st.profiles.filter (fun p => p.email == sender) = [])
    (ht : c.transport 0 = none) :
    POST c st req =
      ({ store :=
          { st with
              pendingEmails := st.pendingEmails ++
                [⟨st.nextId, sender,
                  strOrDefault req.payload.data.subject "No subject",
                  (orStr req.payload.data.text (orStr req.payload.data.html none)).getD "",
                  if ((mostRecentBy (fun p => p.createdAt)
                        (st.pendingEmails.filter fun p => p.email == sender)).bind
                      fun p => p.threadId).isNone then
                    some st.nextId
                  else
                    (mostRecentBy (fun p => p.createdAt)
                        (st.pendingEmails.filter fun p => p.email == sender)).bind
                      fun p => p.threadId,
                  st.nextId⟩]
              nextId := st.nextId + 1 }
         sent := [introMail sender (replySubject req.payload.data.subject "hello")
            (if (mostRecentBy (fun p => p.createdAt)
                  (st.pendingEmails.filter fun p => p.email == sender)).isNone then
              introTextFirst sender
            else introTextAgain sender)]
         sendCount := 1 },
       ⟨200, [("success", .b true), ("action", .s "intro_sent"),
         ("isFirstEmail", .b (mostRecentBy (fun p => p.createdAt)
            (st.pendingEmails.filter fun p => p.email == sender)).isNone)]⟩) ∧
    (∃ pre post,
      (if (mostRecentBy (fun p => p.createdAt)
            (st.pendingEmails.filter fun p => p.email == sender)).isNone then
        introTextFirst sender
      else introTextAgain sender) =
        pre ++ (APP_URL ++ "/signup?email=" ++ encodeURIComponent sender) ++ post) := by
  have hfind : findUniqueProfile st sender = none := by
    unfold findUniqueProfile
    rw [hnoacct]
  have hpb : postBody c st req =
      handleNonAuthenticatedUser c ⟨st, [], 0⟩ sender req.payload.data.subject
        ((orStr req.payload.data.text (orStr req.payload.data.html none)).getD "") := by
    unfold postBody
    rw [hver, htype]
    simp [hsender, hfind]
  constructor
  · unfold POST
    rw [hpb, handleNonAuth_eval c ⟨st, [], 0⟩ sender req.payload.data.subject
      ((orStr req.payload.data.text (orStr req.payload.data.html none)).getD "") ht
      (fun p hp => (hwf.2.2.2.2.2.2.1 p hp).1)]
    rfl
  · by_cases hfirst : (mostRecentBy (fun p => p.createdAt)
        (st.pendingEmails.filter fun p => p.email == sender)).isNone = true
    · refine ⟨"yo! i\x27m alpha, your ai accountability partner.\n\ni help people actually follow through on their goals by checking in every sunday. no app, no complicated system - just email.\n\nwant to try it? sign up here and we can keep chatting:\n",
        "\n\nonce you\x27re in, just tell me what you want to accomplish this week and i\x27ll hold you to it.", ?_⟩
      rw [if_pos hfirst]
      simp [introTextFirst, String.append_assoc]
    · refine ⟨"hey again! looks like you haven\x27t signed up yet.\n\ni\x27d love to keep chatting, but i need you to create an account first so i can remember our conversations and actually help you with your goals.\n\nit takes 30 seconds:\n",
        "\n\nsee you on the other side.", ?_⟩
      rw [if_neg hfirst]
      simp [introTextAgain, String.append_assoc]

/-- Witness for C7: the spec scenario — sender `jane@x.com` with no account,
subject `hi`, body `I want to try this` — yields `intro_sent` with
`isFirstEmail = true`. -/
theorem unknown_sender_intro_path_witness :
    (POST (mkCtx okOracle) emptyStore reqJane).2 =
      ⟨200, [("success", .b true), ("action", .s "intro_sent"), ("isFirstEmail", .b true)]⟩ := by
  have h := (unknown_sender_intro_path (mkCtx okOracle) emptyStore reqJane "jane@x.com"
    (by decide) rfl rfl (by decide) rfl rfl).1
  rw [h]
  rfl

theorem POST_obs (c : Ctx) (st : Store) (req : WebhookRequest) :
    (POST c st req).2 = respOf (postBody c st req) ∧
    (POST c st req).1.sent = sentOf (postBody c st req) := by
  unfold POST respOf sentOf
  cases h : postBody c st req with
  | ok res =>
    cases res
    exact ⟨rfl, rfl⟩
  | error e =>
    cases e
    exact ⟨rfl, rfl⟩

/-- The onboarding reply handler never reads the message history: its response and
the mail it sends are the same for any two stores that agree on the pending
messages, however their `emails` tables differ.  This is because the extraction it
runs is `parseOnboardingReply(userMessage)`, whose input is only the latest
message. -/
theorem onboarding_reply_ignores_history (c : Ctx) (s1 s2 : Store)
    (uid : Nat) (sender : String) (subject : Option String) (msg : String) :
    respOf (handleOnboardingReply c ⟨s1, [], 0⟩ uid sender subject msg) =
      respOf (handleOnboardingReply c ⟨s2, [], 0⟩ uid sender subject msg) ∧
    sentOf (handleOnboardingReply c ⟨s1, [], 0⟩ uid sender subject msg) =
      sentOf (handleOnboardingReply c ⟨s2, [], 0⟩ uid sender subject msg) := by
  unfold handleOnboardingReply handleOnboardingReplyTry
  cases hpar : c.oracle.parseOnboardingReply msg with
  | error e =>
    simp only [hpar]
    cases htr : c.transport 0 with
    | none =>
      rw [bindSendEmail_ok _ htr, bindSendEmail_ok _ htr]
      exact ⟨rfl, rfl⟩
    | some m =>
      rw [bindSendEmail_err _ htr, bindSendEmail_err _ htr]
      exact ⟨rfl, rfl⟩
  | ok ob =>
    cases hparsed : ob.parsed with
    | false =>
      simp only [hpar, hparsed, Bool.not_false, ite_true]
      cases htr : c.transport 0 with
      | none =>
        rw [bindSendEmail_ok _ htr, bindSendEmail_ok _ htr]
        exact ⟨rfl, rfl⟩
      | some m =>
        rw [bindSendEmail_err _ htr, bindSendEmail_err _ htr]
        dsimp only
        simp only [Nat.zero_add]
        cases htr2 : c.transport 1 with
        | none =>
          rw [bindSendEmail_ok _ htr2, bindSendEmail_ok _ htr2]
          exact ⟨rfl, rfl⟩
        | some m2 =>
          rw [bindSendEmail_err _ htr2, bindSendEmail_err _ htr2]
          exact ⟨rfl, rfl⟩
    | true =>
      simp only [hpar, hparsed, Bool.not_true, Bool.false_eq_true, ite_false]
      cases htr : c.transport 0 with
      | none =>
        rw [bindSendEmail_ok _ htr, bindSendEmail_ok _ htr]
        exact ⟨rfl, rfl⟩
      | some m =>
        rw [bindSendEmail_err _ htr, bindSendEmail_err _ htr]
        dsimp only
        simp only [Nat.zero_add]
        cases htr2 : c.transport 1 with
        | none =>
          rw [bindSendEmail_ok _ htr2, bindSendEmail_ok _ htr2]
          exact ⟨rfl, rfl⟩
        | some m2 =>
          rw [bindSendEmail_err _ htr2, bindSendEmail_err _ htr2]
          exact ⟨rfl, rfl⟩

/-- Dispatch of a verified `email.received` delivery from an onboarded sender into
the main path. -/
theorem postBody_to_mainPath (c : Ctx) (st : Store) (req : WebhookRequest) (sender : String)
    (profile : ProfileRow)
    (hver : req.verified = true)
    (htype : req.payload.type = "email.received")
    (hsender : orStr req.payload.data.fromEmail none = some sender)
    (hprof : st.profiles.filter (fun p => p.email == sender) = [profile])
    (honb : profile.onboarded = true) :
    postBody c st req =
      mainPath c ⟨st, [], 0⟩ profile req.payload.data.subject
        ((orStr req.payload.data.text (orStr req.payload.data.html none)).getD "")
        (parseCCEmails (orStr req.payload.data.cc
          (orStr req.payload.data.headerCcLower req.payload.data.headerCcUpper))) := by
  have hfind : findUniqueProfile st sender = some profile := by
    unfold findUniqueProfile
    rw [hprof]
  unfold postBody
  rw [hver, htype]
  simp [hsender, hfind, honb]

@[simp] theorem updateEmailThread_emails (st : Store) (i t : Nat) :
    (st.updateEmailThread i t).emails =
      st.emails.map fun e => if e.id == i then { e with threadId := some t } else e := rfl

set_option maxHeartbeats 1000000 in
theorem checkAndCreateGroup_not_created (st : Store) (u : Nat) (m : String) :
    (checkAndCreateGroup st u m).2.created = false →
    checkAndCreateGroup st u m = (st, ⟨false, ""⟩) := by
  unfold checkAndCreateGroup
  dsimp only
  repeat' split
  all_goals intro h
  all_goals first
    | rfl
    | simp at h

set_option maxHeartbeats 1000000 in
theorem checkAndCreateGroup_snd_eq (st st2 : Store) (u : Nat) (m : String)
    (hrec : st2.emails.filter (fun e => e.userId == u && e.direction == Direction.outbound) =
      st.emails.filter (fun e => e.userId == u && e.direction == Direction.outbound))
    (hprof : st2.profiles = st.profiles) :
    (checkAndCreateGroup st2 u m).2 = (checkAndCreateGroup st u m).2 := by
  unfold checkAndCreateGroup
  dsimp only
  rw [hrec, hprof]
  repeat' split
  all_goals rfl

theorem filter_outbound_insertEmail (st : Store) (u u2 : Nat) (s b : String) (th : Option Nat) :
    ((st.insertEmail u2 .inbound s b th).1.emails.filter fun e =>
      e.userId == u && e.direction == Direction.outbound) =
    st.emails.filter fun e => e.userId == u && e.direction == Direction.outbound := by
  simp only [insertEmail_emails, List.filter_append]
  simp

theorem filter_outbound_insert_update (st : Store) (u u2 : Nat) (s b : String)
    (th : Option Nat) (hids : ∀ e ∈ st.emails, e.id < st.nextId) :
    (((st.insertEmail u2 .inbound s b th).1.updateEmailThread st.nextId st.nextId).emails.filter
      fun e => e.userId == u && e.direction == Direction.outbound) =
    st.emails.filter fun e => e.userId == u && e.direction == Direction.outbound := by
  simp only [updateEmailThread_emails, insertEmail_emails, List.map_append, List.filter_append]
  have h1 : (st.emails.map fun e =>
      if e.id == st.nextId then { e with threadId := some st.nextId } else e) = st.emails :=
    map_id_of_mem fun e he => by
      have hne : e.id ≠ st.nextId := Nat.ne_of_lt (hids e he)
      simp [hne]
  rw [h1]
  simp

/-- Evaluation of the main path when the group-creation shortcut does not fire
(`checkAndCreateGroup` reports `created = false`; its verdict is invariant under
the preceding inbound insert and thread keying, which add no outbound row), the
first model call of either branch fails, and the transport is healthy: exactly
one fallback mail is sent, the response is `fallback_sent`, and the only store
write is the inbound message itself (plus its thread key). -/
theorem mainPath_ai_fail_eval (c : Ctx) (r : RunSt) (profile : ProfileRow)
    (subject : Option String) (msg : String) (ccEmails : List String)
    (hids : ∀ e ∈ r.store.emails, e.id < r.store.nextId)
    (hgroup : (checkAndCreateGroup r.store profile.userId msg).2.created = false)
    (hparse : ∀ a b, ∃ e, c.oracle.parseUserReply a b = Except.error e)
    (hconv : ∀ a b h d, ∃ e, c.oracle.generateConversation a b h d = Except.error e)
    (ht : c.transport r.sendCount = none) :
    mainPath c r profile subject msg ccEmails =
      .ok
        (⟨(if (resolveThread r.store profile.userId subject).isNone then
            ((r.store.insertEmail profile.userId .inbound (strOrDefault subject "No subject")
                msg (resolveThread r.store profile.userId subject)).1.updateEmailThread
              r.store.nextId r.store.nextId)
          else
            (r.store.insertEmail profile.userId .inbound (strOrDefault subject "No subject")
                msg (resolveThread r.store profile.userId subject)).1),
          r.sent ++ [fallbackMail profile.email (strOrDefault profile.firstName "there") subject],
          r.sendCount + 1⟩,
         fallbackSentResponse) := by
  unfold mainPath sendFallbackEmail
  cases hres : resolveThread r.store profile.userId subject with
  | none =>
    simp only [hres, Option.isNone, ite_true, insertEmail_id]
    have hsnd : (checkAndCreateGroup ((r.store.insertEmail profile.userId .inbound
        (strOrDefault subject "No subject") msg none).1.updateEmailThread r.store.nextId
        r.store.nextId) profile.userId msg).2 =
        (checkAndCreateGroup r.store profile.userId msg).2 :=
      checkAndCreateGroup_snd_eq _ _ _ _
        (filter_outbound_insert_update r.store profile.userId profile.userId
          (strOrDefault subject "No subject") msg none hids)
        (by simp)
    have heq := checkAndCreateGroup_not_created _ _ _ (by rw [hsnd]; exact hgroup)
    rw [heq]
    dsimp only
    simp only [Bool.false_eq_true, if_false, ite_false]
    cases hgoal : selectActiveGoal
        ((r.store.insertEmail profile.userId .inbound (strOrDefault subject "No subject")
          msg none).1.updateEmailThread r.store.nextId r.store.nextId) profile.userId with
    | none =>
      obtain ⟨e, he⟩ := hconv (strOrDefault profile.firstName "there") msg
        (conversationHistory r.store profile.userId none) none
      rw [he]
      dsimp only
      rw [bindSendEmail_ok _ ht]
      rfl
    | some goal =>
      dsimp only
      obtain ⟨e, he⟩ := hparse msg goal.description
      rw [he]
      dsimp only
      rw [bindSendEmail_ok _ ht]
      rfl
  | some t =>
    simp only [hres, Option.isNone, Bool.false_eq_true, ite_false, insertEmail_id]
    have hsnd : (checkAndCreateGroup (r.store.insertEmail profile.userId .inbound
        (strOrDefault subject "No subject") msg (some t)).1 profile.userId msg).2 =
        (checkAndCreateGroup r.store profile.userId msg).2 :=
      checkAndCreateGroup_snd_eq _ _ _ _
        (filter_outbound_insertEmail r.store profile.userId profile.userId
          (strOrDefault subject "No subject") msg (some t))
        (by simp)
    have heq := checkAndCreateGroup_not_created _ _ _ (by rw [hsnd]; exact hgroup)
    rw [heq]
    dsimp only
    simp only [Bool.false_eq_true, if_false, ite_false]
    cases hgoal : selectActiveGoal
        (r.store.insertEmail profile.userId .inbound (strOrDefault subject "No subject")
          msg (some t)).1 profile.userId with
    | none =>
      obtain ⟨e, he⟩ := hconv (strOrDefault profile.firstName "there") msg
        (conversationHistory r.store profile.userId (some t)) none
      rw [he]
      dsimp only
      rw [bindSendEmail_ok _ ht]
      rfl
    | some goal =>
      dsimp only
      obtain ⟨e, he⟩ := hparse msg goal.description
      rw [he]
      dsimp only
      rw [bindSendEmail_ok _ ht]
      rfl


/-- C1 (amended): when the first model call of the onboarded path (check-in
extraction or open conversation) fails on all retry attempts and the
group-creation shortcut does not fire (`checkAndCreateGroup` reports
`created = false` — whether because the message is no affirmation or because the
recent outbound context lacks group material), the handler sends exactly one
fixed, non-AI-generated fallback message to the sender, answers `fallback_sent`,
and neither creates nor mutates any Goal record — but the fallback is NOT
recorded as an outbound Message: the only store write is the inbound message
itself. -/
theorem ai_failure_fallback (c : Ctx) (st : Store) (req : WebhookRequest) (sender : String)
    (profile : ProfileRow)
    (hwf : st.WF)
    (hver : req.verified = true)
    (htype : req.payload.type = "email.received")
    (hsender : orStr req.payload.data.fromEmail none = some sender)
    (hprof : st.profiles.filter (fun p => p.email == sender) = [profile])
    (honb : profile.onboarded = true)
    (hgroup : (checkAndCreateGroup st profile.userId
      ((orStr req.payload.data.text (orStr req.payload.data.html none)).getD "")).2.created
        = false)
    (hparse : ∀ a b, ∃ e, c.oracle.parseUserReply a b = Except.error e)
    (hconv : ∀ a b h d, ∃ e, c.oracle.generateConversation a b h d = Except.error e)
    (ht : c.transport 0 = none) :
    (POST c st req).2 = fallbackSentResponse ∧
    (POST c st req).1.sent =
      [fallbackMail profile.email (strOrDefault profile.firstName "there")
        req.payload.data.subject] ∧
    (POST c st req).1.store.goals = st.goals ∧
    (POST c st req).1.store.emails =
      st.emails ++ [⟨st.nextId, profile.userId, .inbound,
        strOrDefault req.payload.data.subject "No subject",
        (orStr req.payload.data.text (orStr req.payload.data.html none)).getD "",
        (if (resolveThread st profile.userId req.payload.data.subject).isNone then
          some st.nextId
        else resolveThread st profile.userId req.payload.data.subject),
        st.nextId, none, none⟩] := by
  have hpb := postBody_to_mainPath c st req sender profile hver htype hsender hprof honb
  have heval := mainPath_ai_fail_eval c ⟨st, [], 0⟩ profile req.payload.data.subject
    ((orStr req.payload.data.text (orStr req.payload.data.html none)).getD "")
    (parseCCEmails (orStr req.payload.data.cc
      (orStr req.payload.data.headerCcLower req.payload.data.headerCcUpper)))
    (fun e he => (hwf.1 e he).1) hgroup hparse hconv ht
  unfold POST
  rw [hpb, heval]
  refine ⟨rfl, by simp, ?_, ?_⟩
  · cases hres : (resolveThread st profile.userId req.payload.data.subject).isNone <;>
      simp [hres]
  · have hid : ∀ x ∈ st.emails,
        (fun e => if e.id == st.nextId then { e with threadId := some st.nextId } else e) x
          = x := by
      intro x hx
      have : x.id ≠ st.nextId := Nat.ne_of_lt (hwf.1 x hx).1
      simp [this]
    cases hres : resolveThread st profile.userId req.payload.data.subject with
    | none =>
      simp only [hres, Option.isNone, ite_true, updateEmailThread_emails, insertEmail_emails,
        List.map_append, map_id_of_mem hid, List.map_cons, List.map_nil, beq_self_eq_true,
        ite_true]
    | some t =>
      simp [hres]

/-- Witness for the amended C1 theorem at a concrete store with an active goal and
a model that is down.  The message opens with an affirmation ("yes, ..."), so the
confirmation pattern matches, yet with no outbound group context the shortcut
reports `created = false`: the fallback is answered and no goal is touched. -/
theorem ai_failure_fallback_witness :
    (POST (mkCtx downOracle) checkinStore reqCheckinYes).2 = fallbackSentResponse ∧
    (POST (mkCtx downOracle) checkinStore reqCheckinYes).1.store.goals =
      checkinStore.goals := by
  have h := ai_failure_fallback (mkCtx downOracle) checkinStore reqCheckinYes "jo@x.com"
    joProfile (by decide) rfl rfl (by decide) (by decide) rfl (by decide)
    (fun a b => ⟨overloadedErr, rfl⟩) (fun a b hh d => ⟨overloadedErr, rfl⟩) rfl
  exact ⟨h.1, h.2.2.1⟩

/-- C1 counterexample: in that concrete run the fallback mail is delivered, yet the
store records no outbound Message at all — the fallback is not logged, against the
claim. -/
theorem fallback_not_recorded_counterexample :
    (POST (mkCtx downOracle) checkinStore reqCheckin).1.sent =
      [fallbackMail "jo@x.com" "Jo" (some "hi")] ∧
    (POST (mkCtx downOracle) checkinStore reqCheckin).1.store.emails.filter
      (fun e => e.direction == Direction.outbound) = [] := by
  exact ⟨rfl, rfl⟩

/-- C2 (refuted): for a pending (not yet onboarded) sender, the outcome of an
onboarding turn — response and outbound mail alike — is identical for any two
message histories, because `handleOnboardingReply` runs the single-shot
`parseOnboardingReply` on the latest message only and never reads the `emails`
table.  Completeness therefore cannot be computed over the accumulated
conversation: a name given in an earlier turn is invisible to the current turn,
contradicting the claim (the multi-turn `onboardingConversation` of `ai.ts`,
documented as serving exactly this purpose, is never called by the pipeline). -/
theorem onboarding_completeness_ignores_history (c : Ctx) (st : Store)
    (E1 E2 : List EmailRow) (req : WebhookRequest) (sender : String) (profile : ProfileRow)
    (hver : req.verified = true)
    (htype : req.payload.type = "email.received")
    (hsender : orStr req.payload.data.fromEmail none = some sender)
    (hprof : st.profiles.filter (fun p => p.email == sender) = [profile])
    (hnotonb : profile.onboarded = false) :
    (POST c { st with emails := E1 } req).2 = (POST c { st with emails := E2 } req).2 ∧
    (POST c { st with emails := E1 } req).1.sent =
      (POST c { st with emails := E2 } req).1.sent := by
  have hd : ∀ E : List EmailRow,
      postBody c { st with emails := E } req =
        handleOnboardingReply c ⟨{ st with emails := E }, [], 0⟩ profile.userId sender
          req.payload.data.subject
          ((orStr req.payload.data.text (orStr req.payload.data.html none)).getD "") := by
    intro E
    have hfind : findUniqueProfile { st with emails := E } sender = some profile := by
      unfold findUniqueProfile
      dsimp only
      rw [hprof]
    unfold postBody
    rw [hver, htype]
    simp [hsender, hfind, hnotonb]
  obtain ⟨hr1, hs1⟩ := POST_obs c { st with emails := E1 } req
  obtain ⟨hr2, hs2⟩ := POST_obs c { st with emails := E2 } req
  rw [hr1, hr2, hs1, hs2, hd E1, hd E2]
  exact onboarding_reply_ignores_history c _ _ profile.userId sender req.payload.data.subject _

/-- Witness for C2: the concrete two-turn scenario.  Whether or not the name-bearing
first turn is in the history, the second turn (goal only) produces the very same
response. -/
theorem onboarding_completeness_ignores_history_witness :
    (POST (mkCtx okOracle) pendingStoreWithHistory reqSamTurn2).2 =
      (POST (mkCtx okOracle) pendingStoreNoHistory reqSamTurn2).2 :=
  (onboarding_completeness_ignores_history (mkCtx okOracle) pendingStoreNoHistory
    pendingStoreWithHistory.emails [] reqSamTurn2 "sam@x.com" samProfile rfl rfl (by decide)
    (by decide) rfl).1

/-- C10: the reply-subject construction always yields a subject that starts with
a case-insensitive reply marker, and it is idempotent: applied to its own output
(with the same per-call-site default) it returns that output unchanged. -/
theorem reply_subject_idempotent (subject : Option String) (dflt : String) :
    lowerStartsWith (replySubject subject dflt) "re:" = true ∧
    replySubject (some (replySubject subject dflt)) dflt = replySubject subject dflt := by
  have hsome : ∀ s : String, strOrEmpty (some s) = s := by
    intro s
    by_cases h : s = "" <;> simp [strOrEmpty, orStr, h]
  have hre : ∀ x : String, lowerStartsWith ("re: " ++ x) "re:" = true := by
    intro x
    have h4 : ("re: ").data = ['r', 'e', ':', ' '] := rfl
    simp only [lowerStartsWith, String.data_append, h4, List.map_append, List.map_cons]
    simp [List.isPrefixOf]
  by_cases h : lowerStartsWith (strOrEmpty subject) "re:"
  · have hout : replySubject subject dflt = strOrEmpty subject := by
      simp [replySubject, h]
    rw [hout]
    exact ⟨h, by simp [replySubject, hsome, h]⟩
  · have hout : replySubject subject dflt =
        "re: " ++ (if strOrEmpty subject = "" then dflt else strOrEmpty subject) := by
      simp [replySubject, h]
    rw [hout]
    refine ⟨hre _, ?_⟩
    simp [replySubject, hsome, hre]

/-! ## Goal-completion freezing (C5) -/

@[simp] theorem stOf_pure (r : RunSt) (resp : HttpResponse) :
    stOf (pure (r, resp)) = r.store := rfl

@[simp] theorem stOf_ok2 (r : RunSt) (resp : HttpResponse) :
    stOf (Except.ok (r, resp)) = r.store := rfl

@[simp] theorem stOf_error2 (r : RunSt) (m : String) :
    stOf (Except.error (r, m)) = r.store := rfl

theorem CompletedFrozen.mono_cf {st st2 : Store} {gid t : Nat} (h : CompletedFrozen st gid t)
    (hg : st2.goals = st.goals) (hn : st.nextId ≤ st2.nextId) : CompletedFrozen st2 gid t :=
  ⟨Nat.lt_of_lt_of_le h.1 hn, fun g hg2 hid => h.2 g (hg ▸ hg2) hid⟩

theorem CompletedFrozen.email_insert_cf {st : Store} {gid t : Nat} (h : CompletedFrozen st gid t)
    (u : Nat) (d : Direction) (s b : String) (th : Option Nat) :
    CompletedFrozen (st.insertEmail u d s b th).1 gid t :=
  h.mono_cf (by simp) (by simp only [insertEmail_nextId]; omega)

theorem CompletedFrozen.email_thread_update_cf {st : Store} {gid t : Nat}
    (h : CompletedFrozen st gid t) (i tid : Nat) :
    CompletedFrozen (st.updateEmailThread i tid) gid t :=
  h.mono_cf (by simp) (by simp)

theorem CompletedFrozen.email_annotate_cf {st : Store} {gid t : Nat} (h : CompletedFrozen st gid t)
    (i : Nat) (s m : String) : CompletedFrozen (st.annotateEmail i s m) gid t :=
  h.mono_cf (by simp) (by simp)

theorem CompletedFrozen.pending_insert_cf {st : Store} {gid t : Nat} (h : CompletedFrozen st gid t)
    (e s b : String) (th : Option Nat) :
    CompletedFrozen (st.insertPending e s b th).1 gid t :=
  h.mono_cf (by simp) (by simp only [insertPending_nextId]; omega)

theorem CompletedFrozen.pending_update_cf {st : Store} {gid t : Nat} (h : CompletedFrozen st gid t)
    (i tid : Nat) : CompletedFrozen (st.updatePendingThread i tid) gid t :=
  h.mono_cf (by simp) (by simp)

theorem CompletedFrozen.pending_delete_cf {st : Store} {gid t : Nat} (h : CompletedFrozen st gid t)
    (e : String) : CompletedFrozen (st.deletePendingByEmail e) gid t :=
  h.mono_cf (by simp) (by simp)

theorem CompletedFrozen.profile_onboard_cf {st : Store} {gid t : Nat} (h : CompletedFrozen st gid t)
    (u : Nat) (n : String) : CompletedFrozen (st.updateProfileOnboard u n) gid t :=
  h.mono_cf (by simp) (by simp)

theorem CompletedFrozen.user_confirm_cf {st : Store} {gid t : Nat} (h : CompletedFrozen st gid t)
    (u : Nat) : CompletedFrozen (st.confirmUser u) gid t :=
  h.mono_cf (by simp) (by simp)

theorem CompletedFrozen.summary_step_cf {st : Store} {gid t : Nat} (h : CompletedFrozen st gid t)
    (c : Ctx) (u : Nat) (fn : String) : CompletedFrozen (updateUserSummary c st u fn) gid t :=
  h.mono_cf (updateUserSummary_frame c st u fn).1
    (Nat.le_of_eq (updateUserSummary_frame c st u fn).2.2.2.symm)

theorem CompletedFrozen.group_step_cf {st : Store} {gid t : Nat} (h : CompletedFrozen st gid t)
    (u : Nat) (m : String) :
    CompletedFrozen (checkAndCreateGroup st u m).1 gid t :=
  h.mono_cf (checkAndCreateGroup_frame st u m).1 (checkAndCreateGroup_frame st u m).2.2.2.2

theorem CompletedFrozen.goal_insert_cf {st : Store} {gid t : Nat} (h : CompletedFrozen st gid t)
    (u : Nat) (d : String) (due : Nat) : CompletedFrozen (st.insertGoal u d due) gid t := by
  have h1 := h.1
  refine ⟨by simp only [insertGoal_nextId]; omega, ?_⟩
  intro g hg hid
  simp only [insertGoal_goals, List.mem_append, List.mem_singleton] at hg
  rcases hg with hg | hg
  · exact h.2 g hg hid
  · exfalso
    subst hg
    have h2 : st.nextId = gid := hid
    omega

theorem CompletedFrozen.goal_complete_cf {st : Store} {gid t : Nat} (h : CompletedFrozen st gid t)
    {i : Nat} (hi : i ≠ gid) (now : Nat) : CompletedFrozen (st.completeGoal i now) gid t := by
  refine ⟨by simpa using h.1, ?_⟩
  intro g hg hid
  simp only [completeGoal_goals, List.mem_map] at hg
  obtain ⟨g0, hg0, heq⟩ := hg
  by_cases hc : (g0.id == i) = true
  · rw [if_pos hc] at heq
    subst heq
    have hgi : g0.id = i := by simpa using hc
    have hid2 : g0.id = gid := hid
    exact absurd (hgi ▸ hid2) hi
  · rw [if_neg hc] at heq
    subst heq
    exact h.2 g0 hg0 hid

theorem CompletedFrozen.ite_both_cf {st1 st2 : Store} {gid t : Nat} (b : Bool)
    (h1 : CompletedFrozen st1 gid t) (h2 : CompletedFrozen st2 gid t) :
    CompletedFrozen (if b then st1 else st2) gid t := by
  cases b
  · simpa using h2
  · simpa using h1

theorem selectActiveGoal_ne_frozen {st : Store} {gid t u : Nat} {goal : GoalRow}
    (h : CompletedFrozen st gid t) (hsel : selectActiveGoal st u = some goal) :
    goal.id ≠ gid := by
  intro hid
  have hsel2 : mostRecentBy (fun g => g.createdAt)
      (st.goals.filter fun g => g.userId == u && g.completed == false) = some goal := hsel
  obtain ⟨hmem, _⟩ := mostRecentBy_mem hsel2
  rw [List.mem_filter] at hmem
  have hcomp := h.2 goal hmem.1 hid
  have hflt := hmem.2
  simp only [Bool.and_eq_true, beq_iff_eq] at hflt
  rw [hcomp.1] at hflt
  simp at hflt

theorem frozen_email_fold (u : Nat) (l : List PendingEmailRow) {gid t : Nat} :
    ∀ {st : Store}, CompletedFrozen st gid t →
      CompletedFrozen
        (l.foldl (fun s pe => (s.insertEmail u .inbound pe.subject pe.content none).1) st)
        gid t := by
  induction l with
  | nil =>
    intro st h
    exact h
  | cons p ps ih =>
    intro st h
    exact ih (h.email_insert_cf u .inbound p.subject p.content none)

theorem frozen_bind_send {gid t : Nat} {c : Ctx} {r : RunSt} {m : SentEmail}
    {k : RunSt → Except (RunSt × String) (RunSt × HttpResponse)}
    (hok : ∀ r1 : RunSt, r1.store = r.store → CompletedFrozen (stOf (k r1)) gid t)
    (herr : CompletedFrozen r.store gid t) :
    CompletedFrozen (stOf (sendEmailOp c r m >>= k)) gid t := by
  unfold sendEmailOp
  cases ht : c.transport r.sendCount with
  | none =>
    dsimp only
    exact hok { r with sent := r.sent ++ [m], sendCount := r.sendCount + 1 } rfl
  | some msg =>
    dsimp only
    exact herr

theorem handleNonAuth_preserves (c : Ctx) (r : RunSt) (e : String) (subject : Option String)
    (msg : String) (gid t : Nat) (h : CompletedFrozen r.store gid t) :
    CompletedFrozen (stOf (handleNonAuthenticatedUser c r e subject msg)) gid t := by
  unfold handleNonAuthenticatedUser
  dsimp only
  apply frozen_bind_send
  · intro r1 hr1
    simp only [stOf_pure]
    rw [hr1]
    dsimp only
    exact CompletedFrozen.ite_both_cf _
      ((h.pending_insert_cf _ _ _ _).pending_update_cf _ _) (h.pending_insert_cf _ _ _ _)
  · dsimp only
    exact CompletedFrozen.ite_both_cf _
      ((h.pending_insert_cf _ _ _ _).pending_update_cf _ _) (h.pending_insert_cf _ _ _ _)

theorem handleOnboardingReplyTry_preserves (c : Ctx) (r : RunSt) (u : Nat) (e : String)
    (subject : Option String) (msg rs : String) (gid t : Nat)
    (h : CompletedFrozen r.store gid t) :
    CompletedFrozen (stOf (handleOnboardingReplyTry c r u e subject msg rs)) gid t := by
  unfold handleOnboardingReplyTry
  cases hp : c.oracle.parseOnboardingReply msg with
  | error err =>
    dsimp only
    exact h
  | ok ob =>
    dsimp only
    cases hob : ob.parsed with
    | false =>
      simp only [hob, Bool.not_false, if_true, ite_true]
      apply frozen_bind_send
      · intro r1 hr1
        simp only [stOf_pure]
        rw [hr1]
        exact (h.email_insert_cf _ _ _ _ _).email_insert_cf _ _ _ _ _
      · exact h
    | true =>
      simp only [hob, Bool.not_true, Bool.false_eq_true, if_false, ite_false]
      apply frozen_bind_send
      · intro r1 hr1
        simp only [stOf_pure]
        rw [hr1]
        exact ((CompletedFrozen.ite_both_cf _
            (frozen_email_fold _ _ (((h.profile_onboard_cf _ _).user_confirm_cf _).goal_insert_cf _ _ _))
            ((frozen_email_fold _ _
              (((h.profile_onboard_cf _ _).user_confirm_cf _).goal_insert_cf _ _ _)).pending_delete_cf
                _)).email_insert_cf _ _ _ _ _).email_insert_cf _ _ _ _ _
      · dsimp only
        exact CompletedFrozen.ite_both_cf _
          (frozen_email_fold _ _ (((h.profile_onboard_cf _ _).user_confirm_cf _).goal_insert_cf _ _ _))
          ((frozen_email_fold _ _
            (((h.profile_onboard_cf _ _).user_confirm_cf _).goal_insert_cf _ _ _)).pending_delete_cf _)

theorem handleOnboardingReply_preserves (c : Ctx) (r : RunSt) (u : Nat) (e : String)
    (subject : Option String) (msg : String) (gid t : Nat)
    (h : CompletedFrozen r.store gid t) :
    CompletedFrozen (stOf (handleOnboardingReply c r u e subject msg)) gid t := by
  unfold handleOnboardingReply
  dsimp only
  have htry := handleOnboardingReplyTry_preserves c r u e subject msg
    (replySubject subject "let\x27s get you set up") gid t h
  cases ht2 : handleOnboardingReplyTry c r u e subject msg
      (replySubject subject "let\x27s get you set up") with
  | ok res =>
    rw [ht2] at htry
    dsimp only
    exact htry
  | error rp =>
    rw [ht2] at htry
    obtain ⟨r2, emsg⟩ := rp
    simp only [stOf_error2] at htry
    dsimp only
    apply frozen_bind_send
    · intro r3 hr3
      simp only [stOf_pure]
      rw [hr3]
      exact htry
    · exact htry

theorem mainPath_preserves_frozen (c : Ctx) (r : RunSt) (profile : ProfileRow)
    (subject : Option String) (msg : String) (ccEmails : List String) (gid t : Nat)
    (h : CompletedFrozen r.store gid t) :
    CompletedFrozen (stOf (mainPath c r profile subject msg ccEmails)) gid t := by
  unfold mainPath sendFallbackEmail
  dsimp only
  generalize hth0 : resolveThread r.store profile.userId subject = th0
  generalize hin : r.store.insertEmail profile.userId .inbound
    (strOrDefault subject "No subject") msg th0 = inserted
  have hins : CompletedFrozen inserted.1 gid t := by
    rw [← hin]
    exact h.email_insert_cf _ _ _ _ _
  have h2 : CompletedFrozen (if th0.isNone then
      (inserted.1.updateEmailThread inserted.2 inserted.2, some inserted.2)
    else (inserted.1, th0)).1 gid t := by
    cases hb : th0.isNone
    · simp only [hb, Bool.false_eq_true, if_false, ite_false]
      exact hins
    · simp only [hb, if_true, ite_true]
      exact hins.email_thread_update_cf _ _
  generalize hpr : (if th0.isNone then
      (inserted.1.updateEmailThread inserted.2 inserted.2, some inserted.2)
    else (inserted.1, th0)) = pr at h2 ⊢
  have h3 : CompletedFrozen (checkAndCreateGroup pr.1 profile.userId msg).1 gid t :=
    h2.group_step_cf _ _
  generalize hst3 : (checkAndCreateGroup pr.1 profile.userId msg).1 = st3 at h3 ⊢
  cases hcr : (checkAndCreateGroup pr.1 profile.userId msg).2.created with
  | true =>
    simp only [if_true, ite_true]
    apply frozen_bind_send
    · intro r1 hr1
      simp only [stOf_pure]
      rw [hr1]
      dsimp only
      exact h3.email_insert_cf _ _ _ _ _
    · dsimp only
      exact h3
  | false =>
    simp only [Bool.false_eq_true, if_false, ite_false]
    cases hsel : selectActiveGoal pr.1 profile.userId with
    | none =>
      dsimp only
      cases hconv : c.oracle.generateConversation (strOrDefault profile.firstName "there") msg
          (conversationHistory r.store profile.userId th0) none with
      | error err =>
        dsimp only
        apply frozen_bind_send
        · intro r1 hr1
          simp only [stOf_pure]
          rw [hr1]
          dsimp only
          exact h3
        · dsimp only
          exact h3
      | ok alpha =>
        dsimp only
        cases hgm : goalMatch (jsToLower msg) with
        | none =>
          dsimp only
          apply frozen_bind_send
          · intro r1 hr1
            simp only [stOf_pure]
            rw [hr1]
            dsimp only
            exact (h3.email_insert_cf _ _ _ _ _).summary_step_cf _ _ _
          · dsimp only
            exact h3
        | some cap =>
          dsimp only
          apply frozen_bind_send
          · intro r1 hr1
            simp only [stOf_pure]
            rw [hr1]
            dsimp only
            exact ((h3.goal_insert_cf _ _ _).email_insert_cf _ _ _ _ _).summary_step_cf _ _ _
          · dsimp only
            exact h3.goal_insert_cf _ _ _
    | some goal =>
      dsimp only
      have hne : goal.id ≠ gid := selectActiveGoal_ne_frozen h2 hsel
      cases hparse : c.oracle.parseUserReply msg goal.description with
      | error err =>
        dsimp only
        apply frozen_bind_send
        · intro r1 hr1
          simp only [stOf_pure]
          rw [hr1]
          dsimp only
          exact h3
        · dsimp only
          exact h3
      | ok parsed =>
        dsimp only
        have h5 : CompletedFrozen (if jsTruthy parsed.nextGoal then
            (if parsed.completed then st3.completeGoal goal.id c.now else st3).insertGoal
              profile.userId (parsed.nextGoal.getD "") (nextSunday c.today)
          else if parsed.completed then st3.completeGoal goal.id c.now else st3) gid t :=
          CompletedFrozen.ite_both_cf _
            ((CompletedFrozen.ite_both_cf _ (h3.goal_complete_cf hne _) h3).goal_insert_cf _ _ _)
            (CompletedFrozen.ite_both_cf _ (h3.goal_complete_cf hne _) h3)
        cases halpha : c.oracle.generateAlphaResponse (strOrDefault profile.firstName "there")
            goal.description parsed (conversationHistory r.store profile.userId th0) with
        | error err =>
          dsimp only
          apply frozen_bind_send
          · intro r1 hr1
            simp only [stOf_pure]
            rw [hr1]
            dsimp only
            exact h5.email_annotate_cf _ _ _
          · dsimp only
            exact h5.email_annotate_cf _ _ _
        | ok alpha =>
          dsimp only
          apply frozen_bind_send
          · intro r1 hr1
            simp only [stOf_pure]
            rw [hr1]
            dsimp only
            exact (((h5.email_annotate_cf _ _ _).email_insert_cf _ _ _ _ _).summary_step_cf _ _ _)
          · dsimp only
            exact h5.email_annotate_cf _ _ _

theorem postBody_preserves_frozen (c : Ctx) (st : Store) (req : WebhookRequest) (gid t : Nat)
    (h : CompletedFrozen st gid t) :
    CompletedFrozen (stOf (postBody c st req)) gid t := by
  unfold postBody
  dsimp only
  split
  · exact h
  · split
    · exact h
    · split
      · exact h
      · split
        · split
          · exact handleOnboardingReply_preserves _ _ _ _ _ _ _ _ h
          · exact mainPath_preserves_frozen _ _ _ _ _ _ _ _ h
        · exact handleNonAuth_preserves _ _ _ _ _ _ _ h

theorem POST_store (c : Ctx) (st : Store) (req : WebhookRequest) :
    (POST c st req).1.store = stOf (postBody c st req) := by
  unfold POST
  cases hp : postBody c st req with
  | ok res => rfl
  | error rp => rfl

theorem POST_preserves_frozen (c : Ctx) (st : Store) (req : WebhookRequest) (gid t : Nat)
    (h : CompletedFrozen st gid t) :
    CompletedFrozen (POST c st req).1.store gid t := by
  rw [POST_store]
  exact postBody_preserves_frozen c st req gid t h

theorem processAll_preserves_frozen (evs : List (Ctx × WebhookRequest)) (st : Store)
    (gid t : Nat) (h : CompletedFrozen st gid t) :
    CompletedFrozen (processAll st evs) gid t := by
  induction evs generalizing st with
  | nil => exact h
  | cons ev rest ih =>
    obtain ⟨c, req⟩ := ev
    exact ih _ (POST_preserves_frozen c st req gid t h)

/-- C5: a goal is completed at most once.  Once a goals row with id `gid` is
marked completed with completion stamp `t`, no replay of further deliveries —
completion-signaling check-ins included — ever changes that: every later state
still shows the row completed with the same stamp, because the completion update
only targets the goal picked by the active-goal selection (which never returns an
already-completed goal) and newly created goals always take fresh ids. -/
theorem goal_completed_at_most_once (st : Store) (gid t : Nat)
    (evs : List (Ctx × WebhookRequest))
    (hgid : gid < st.nextId)
    (hdone : ∀ g ∈ st.goals, g.id = gid → g.completed = true ∧ g.completedAt = some t) :
    ∀ g ∈ (processAll st evs).goals, g.id = gid →
      g.completed = true ∧ g.completedAt = some t :=
  (processAll_preserves_frozen evs st gid t ⟨hgid, hdone⟩).2

/-- Witness for C5 at a concrete replay: the store holds a goal (id 2) already
completed at stamp 77 and an active goal; two further completion-signaling
check-ins are delivered, and the completed goal still carries exactly the stamp
77 afterwards. -/
theorem goal_completed_at_most_once_witness :
    (2 < replayStore.nextId ∧
      (∀ g ∈ replayStore.goals, g.id = 2 → g.completed = true ∧ g.completedAt = some 77)) ∧
    ∀ g ∈ (processAll replayStore
        [(mkCtx okOracle, reqCheckin), (mkCtx okOracle, reqCheckin)]).goals,
      g.id = 2 → g.completed = true ∧ g.completedAt = some 77 :=
  ⟨⟨by decide, by decide⟩,
   goal_completed_at_most_once replayStore 2 77
     [(mkCtx okOracle, reqCheckin), (mkCtx okOracle, reqCheckin)] (by decide) (by decide)⟩

/-! ## Thread resolution (C6) -/

@[simp] theorem annotateEmail_emails (st : Store) (j : Nat) (s m : String) :
    (st.annotateEmail j s m).emails =
      st.emails.map fun e =>
        if e.id == j then { e with summary := some s, mood := some m } else e := rfl

theorem resolveThread_empty (st : Store) (uid : Nat) (subject : Option String)
    (h : cleanSubject subject = "") : resolveThread st uid subject = none := by
  unfold resolveThread
  simp [h]

theorem resolveThread_none_char (st : Store) (uid : Nat) (subject : Option String)
    (hne : cleanSubject subject ≠ "") (h : resolveThread st uid subject = none) :
    ∀ e ∈ st.emails, e.userId = uid → e.threadId.isSome = true →
      containsCI (cleanSubject subject) e.subject = true → False := by
  intro e he hu hsome hcont
  unfold resolveThread at h
  dsimp only at h
  rw [if_neg hne] at h
  cases hmr : mostRecentBy (fun x => x.createdAt)
      (st.emails.filter fun x =>
        x.userId == uid && x.threadId.isSome && containsCI (cleanSubject subject) x.subject) with
  | none =>
    rcases mostRecentBy_spec (fun x => x.createdAt)
        (st.emails.filter fun x =>
          x.userId == uid && x.threadId.isSome && containsCI (cleanSubject subject) x.subject)
      with ⟨hnil, _⟩ | ⟨b2, hb2, _⟩
    · have hemem : e ∈ st.emails.filter fun x =>
          x.userId == uid && x.threadId.isSome && containsCI (cleanSubject subject) x.subject := by
        rw [List.mem_filter]
        exact ⟨he, by simp [hu, hsome, hcont]⟩
      rw [hnil] at hemem
      cases hemem
    · rw [hmr] at hb2
      cases hb2
  | some b =>
    rw [hmr] at h
    dsimp only at h
    obtain ⟨hbmem, _⟩ := mostRecentBy_mem hmr
    rw [List.mem_filter] at hbmem
    have hb2 := hbmem.2
    simp only [Bool.and_eq_true] at hb2
    rw [h] at hb2
    simp at hb2

theorem resolveThread_some_char (st : Store) (uid : Nat) (subject : Option String) (tid : Nat)
    (h : resolveThread st uid subject = some tid) :
    ∃ e ∈ st.emails, e.userId = uid ∧ e.threadId = some tid ∧
      containsCI (cleanSubject subject) e.subject = true ∧
      ∀ e2 ∈ st.emails, e2.userId = uid → e2.threadId.isSome = true →
        containsCI (cleanSubject subject) e2.subject = true → e2.createdAt ≤ e.createdAt := by
  unfold resolveThread at h
  dsimp only at h
  by_cases hne : cleanSubject subject = ""
  · rw [if_pos hne] at h
    cases h
  · rw [if_neg hne] at h
    cases hmr : mostRecentBy (fun x => x.createdAt)
        (st.emails.filter fun x =>
          x.userId == uid && x.threadId.isSome && containsCI (cleanSubject subject) x.subject) with
    | none =>
      rw [hmr] at h
      simp at h
    | some b =>
      rw [hmr] at h
      dsimp only at h
      obtain ⟨hbmem, hmax⟩ := mostRecentBy_mem hmr
      rw [List.mem_filter] at hbmem
      have hb2 := hbmem.2
      simp only [Bool.and_eq_true, beq_iff_eq] at hb2
      refine ⟨b, hbmem.1, hb2.1.1, h, hb2.2, ?_⟩
      intro e2 he2 hu2 hsome2 hcont2
      have he2f : e2 ∈ st.emails.filter fun x =>
          x.userId == uid && x.threadId.isSome && containsCI (cleanSubject subject) x.subject := by
        rw [List.mem_filter]
        exact ⟨he2, by simp [hu2, hsome2, hcont2]⟩
      exact hmax e2 he2f

theorem ThreadSelfRow.mono_tsr {st st2 : Store} {i : Nat} (h : ThreadSelfRow st i)
    (he : st2.emails = st.emails) (hn : st.nextId ≤ st2.nextId) : ThreadSelfRow st2 i := by
  refine ⟨Nat.lt_of_lt_of_le h.1 hn, ?_, ?_⟩
  · rw [he]
    exact h.2.1
  · rw [he]
    exact h.2.2

theorem ThreadSelfRow.email_insert_tsr {st : Store} {i : Nat} (h : ThreadSelfRow st i)
    (u : Nat) (d : Direction) (s b : String) (th : Option Nat) :
    ThreadSelfRow (st.insertEmail u d s b th).1 i := by
  obtain ⟨hlt, ⟨e0, he0, hid0, hth0⟩, hall⟩ := h
  refine ⟨by simp only [insertEmail_nextId]; omega, ⟨e0, ?_, hid0, hth0⟩, ?_⟩
  · simp only [insertEmail_emails, List.mem_append]
    exact Or.inl he0
  · intro e he hid
    simp only [insertEmail_emails, List.mem_append, List.mem_singleton] at he
    rcases he with he | he
    · exact hall e he hid
    · exfalso
      subst he
      have h2 : st.nextId = i := hid
      omega

theorem ThreadSelfRow.email_annotate_tsr {st : Store} {i : Nat} (h : ThreadSelfRow st i)
    (j : Nat) (s m : String) : ThreadSelfRow (st.annotateEmail j s m) i := by
  obtain ⟨hlt, ⟨e0, he0, hid0, hth0⟩, hall⟩ := h
  refine ⟨by simpa using hlt, ?_, ?_⟩
  · refine ⟨if e0.id == j then { e0 with summary := some s, mood := some m } else e0, ?_, ?_, ?_⟩
    · simp only [annotateEmail_emails]
      exact List.mem_map.mpr ⟨e0, he0, rfl⟩
    · by_cases hc : (e0.id == j) = true
      · rw [if_pos hc]
        exact hid0
      · rw [if_neg hc]
        exact hid0
    · by_cases hc : (e0.id == j) = true
      · rw [if_pos hc]
        exact hth0
      · rw [if_neg hc]
        exact hth0
  · intro e he hid
    simp only [annotateEmail_emails, List.mem_map] at he
    obtain ⟨e1, he1, heq⟩ := he
    by_cases hc : (e1.id == j) = true
    · rw [if_pos hc] at heq
      subst heq
      exact hall e1 he1 hid
    · rw [if_neg hc] at heq
      subst heq
      exact hall e1 he1 hid

theorem ThreadSelfRow.establish (st : Store) (u : Nat) (s b : String) :
    ThreadSelfRow
      ((st.insertEmail u .inbound s b none).1.updateEmailThread st.nextId st.nextId)
      st.nextId := by
  refine ⟨by simp only [updateEmailThread_nextId, insertEmail_nextId]; omega, ?_, ?_⟩
  · refine ⟨⟨st.nextId, u, .inbound, s, b, some st.nextId, st.nextId, none, none⟩, ?_, rfl, rfl⟩
    simp only [updateEmailThread_emails]
    refine List.mem_map.mpr
      ⟨⟨st.nextId, u, .inbound, s, b, none, st.nextId, none, none⟩, ?_, ?_⟩
    · simp
    · simp
  · intro e he hid
    simp only [updateEmailThread_emails, List.mem_map] at he
    obtain ⟨e1, he1, heq⟩ := he
    by_cases hc : (e1.id == st.nextId) = true
    · rw [if_pos hc] at heq
      subst heq
      rfl
    · rw [if_neg hc] at heq
      subst heq
      exact absurd (by simpa using hid) hc

theorem ThreadSelfRow.group_step_tsr {st : Store} {i : Nat} (h : ThreadSelfRow st i)
    (u : Nat) (m : String) : ThreadSelfRow (checkAndCreateGroup st u m).1 i :=
  h.mono_tsr (checkAndCreateGroup_frame st u m).2.1 (checkAndCreateGroup_frame st u m).2.2.2.2

theorem ThreadSelfRow.goal_insert_tsr {st : Store} {i : Nat} (h : ThreadSelfRow st i)
    (u : Nat) (d : String) (due : Nat) : ThreadSelfRow (st.insertGoal u d due) i :=
  h.mono_tsr (by simp) (by simp only [insertGoal_nextId]; omega)

theorem ThreadSelfRow.goal_complete_tsr {st : Store} {i : Nat} (h : ThreadSelfRow st i)
    (j now : Nat) : ThreadSelfRow (st.completeGoal j now) i :=
  h.mono_tsr (by simp) (by simp)

theorem ThreadSelfRow.summary_step_tsr {st : Store} {i : Nat} (h : ThreadSelfRow st i)
    (c : Ctx) (u : Nat) (fn : String) : ThreadSelfRow (updateUserSummary c st u fn) i :=
  h.mono_tsr (updateUserSummary_frame c st u fn).2.1
    (Nat.le_of_eq (updateUserSummary_frame c st u fn).2.2.2.symm)

theorem ThreadSelfRow.ite_both_tsr {st1 st2 : Store} {i : Nat} (b : Bool)
    (h1 : ThreadSelfRow st1 i) (h2 : ThreadSelfRow st2 i) :
    ThreadSelfRow (if b then st1 else st2) i := by
  cases b
  · simpa using h2
  · simpa using h1

theorem tsr_bind_send {i : Nat} {c : Ctx} {r : RunSt} {m : SentEmail}
    {k : RunSt → Except (RunSt × String) (RunSt × HttpResponse)}
    (hok : ∀ r1 : RunSt, r1.store = r.store → ThreadSelfRow (stOf (k r1)) i)
    (herr : ThreadSelfRow r.store i) :
    ThreadSelfRow (stOf (sendEmailOp c r m >>= k)) i := by
  unfold sendEmailOp
  cases ht : c.transport r.sendCount with
  | none =>
    dsimp only
    exact hok { r with sent := r.sent ++ [m], sendCount := r.sendCount + 1 } rfl
  | some msg =>
    dsimp only
    exact herr

theorem mainPath_thread_self (c : Ctx) (r : RunSt) (profile : ProfileRow)
    (subject : Option String) (msg : String) (ccEmails : List String)
    (hres : resolveThread r.store profile.userId subject = none) :
    ThreadSelfRow (stOf (mainPath c r profile subject msg ccEmails)) r.store.nextId := by
  unfold mainPath sendFallbackEmail
  dsimp only
  simp only [hres, Option.isNone, ite_true, insertEmail_id]
  have h2 : ThreadSelfRow ((r.store.insertEmail profile.userId .inbound
      (strOrDefault subject "No subject") msg none).1.updateEmailThread r.store.nextId
      r.store.nextId) r.store.nextId :=
    ThreadSelfRow.establish r.store profile.userId (strOrDefault subject "No subject") msg
  generalize hst2 : (r.store.insertEmail profile.userId .inbound
      (strOrDefault subject "No subject") msg none).1.updateEmailThread r.store.nextId
      r.store.nextId = st2 at h2 ⊢
  have h3 : ThreadSelfRow (checkAndCreateGroup st2 profile.userId msg).1 r.store.nextId :=
    h2.group_step_tsr _ _
  generalize hst3 : (checkAndCreateGroup st2 profile.userId msg).1 = st3 at h3 ⊢
  cases hcr : (checkAndCreateGroup st2 profile.userId msg).2.created with
  | true =>
    simp only [if_true, ite_true]
    apply tsr_bind_send
    · intro r1 hr1
      simp only [stOf_pure]
      rw [hr1]
      dsimp only
      exact h3.email_insert_tsr _ _ _ _ _
    · dsimp only
      exact h3
  | false =>
    simp only [Bool.false_eq_true, if_false, ite_false]
    cases hsel : selectActiveGoal st2 profile.userId with
    | none =>
      dsimp only
      cases hconv : c.oracle.generateConversation (strOrDefault profile.firstName "there") msg
          (conversationHistory r.store profile.userId none) none with
      | error err =>
        dsimp only
        apply tsr_bind_send
        · intro r1 hr1
          simp only [stOf_pure]
          rw [hr1]
          dsimp only
          exact h3
        · dsimp only
          exact h3
      | ok alpha =>
        dsimp only
        cases hgm : goalMatch (jsToLower msg) with
        | none =>
          dsimp only
          apply tsr_bind_send
          · intro r1 hr1
            simp only [stOf_pure]
            rw [hr1]
            dsimp only
            exact (h3.email_insert_tsr _ _ _ _ _).summary_step_tsr _ _ _
          · dsimp only
            exact h3
        | some cap =>
          dsimp only
          apply tsr_bind_send
          · intro r1 hr1
            simp only [stOf_pure]
            rw [hr1]
            dsimp only
            exact ((h3.goal_insert_tsr _ _ _).email_insert_tsr _ _ _ _ _).summary_step_tsr _ _ _
          · dsimp only
            exact h3.goal_insert_tsr _ _ _
    | some goal =>
      dsimp only
      cases hparse : c.oracle.parseUserReply msg goal.description with
      | error err =>
        dsimp only
        apply tsr_bind_send
        · intro r1 hr1
          simp only [stOf_pure]
          rw [hr1]
          dsimp only
          exact h3
        · dsimp only
          exact h3
      | ok parsed =>
        dsimp only
        have h5 : ThreadSelfRow (if jsTruthy parsed.nextGoal then
            (if parsed.completed then st3.completeGoal goal.id c.now else st3).insertGoal
              profile.userId (parsed.nextGoal.getD "") (nextSunday c.today)
          else if parsed.completed then st3.completeGoal goal.id c.now else st3)
            r.store.nextId :=
          ThreadSelfRow.ite_both_tsr _
            ((ThreadSelfRow.ite_both_tsr _ (h3.goal_complete_tsr _ _) h3).goal_insert_tsr _ _ _)
            (ThreadSelfRow.ite_both_tsr _ (h3.goal_complete_tsr _ _) h3)
        cases halpha : c.oracle.generateAlphaResponse (strOrDefault profile.firstName "there")
            goal.description parsed (conversationHistory r.store profile.userId none) with
        | error err =>
          dsimp only
          apply tsr_bind_send
          · intro r1 hr1
            simp only [stOf_pure]
            rw [hr1]
            dsimp only
            exact h5.email_annotate_tsr _ _ _
          · dsimp only
            exact h5.email_annotate_tsr _ _ _
        | ok alpha =>
          dsimp only
          apply tsr_bind_send
          · intro r1 hr1
            simp only [stOf_pure]
            rw [hr1]
            dsimp only
            exact (((h5.email_annotate_tsr _ _ _).email_insert_tsr _ _ _ _ _).summary_step_tsr _ _ _)
          · dsimp only
            exact h5.email_annotate_tsr _ _ _

/-- C6: thread resolution follows exactly the documented algorithm.  With the
subject normalized by `cleanSubject` (strip one leading case-insensitive reply
marker, then surrounding whitespace): an empty normalized subject resolves no
thread; a resolved thread id is the non-null thread id of one of the senders
stored messages whose subject contains the normalized subject case-insensitively,
and that message is most recent among all such candidates; a `none` result on a
non-empty normalized subject means no candidate exists; and when no thread is
resolved, the newly stored inbound row (id `st.nextId`) ends the request keyed to
its own id as thread id. -/
theorem thread_resolution_exact (c : Ctx) (st : Store) (req : WebhookRequest) (sender : String)
    (profile : ProfileRow)
    (hver : req.verified = true)
    (htype : req.payload.type = "email.received")
    (hsender : orStr req.payload.data.fromEmail none = some sender)
    (hprof : st.profiles.filter (fun p => p.email == sender) = [profile])
    (honb : profile.onboarded = true) :
    (cleanSubject req.payload.data.subject = "" →
      resolveThread st profile.userId req.payload.data.subject = none) ∧
    (∀ tid, resolveThread st profile.userId req.payload.data.subject = some tid →
      ∃ e ∈ st.emails, e.userId = profile.userId ∧ e.threadId = some tid ∧
        containsCI (cleanSubject req.payload.data.subject) e.subject = true ∧
        ∀ e2 ∈ st.emails, e2.userId = profile.userId → e2.threadId.isSome = true →
          containsCI (cleanSubject req.payload.data.subject) e2.subject = true →
          e2.createdAt ≤ e.createdAt) ∧
    (cleanSubject req.payload.data.subject ≠ "" →
      resolveThread st profile.userId req.payload.data.subject = none →
      ∀ e ∈ st.emails, e.userId = profile.userId → e.threadId.isSome = true →
        containsCI (cleanSubject req.payload.data.subject) e.subject = true → False) ∧
    (resolveThread st profile.userId req.payload.data.subject = none →
      (∃ e ∈ (POST c st req).1.store.emails, e.id = st.nextId ∧ e.threadId = some st.nextId) ∧
      ∀ e ∈ (POST c st req).1.store.emails, e.id = st.nextId → e.threadId = some st.nextId) := by
  refine ⟨resolveThread_empty st profile.userId _,
    fun tid h => resolveThread_some_char st profile.userId _ tid h,
    fun hne h => resolveThread_none_char st profile.userId _ hne h, ?_⟩
  intro hres
  rw [POST_store, postBody_to_mainPath c st req sender profile hver htype hsender hprof honb]
  have h := mainPath_thread_self c ⟨st, [], 0⟩ profile req.payload.data.subject
    ((orStr req.payload.data.text (orStr req.payload.data.html none)).getD "")
    (parseCCEmails (orStr req.payload.data.cc
      (orStr req.payload.data.headerCcLower req.payload.data.headerCcUpper)))
    hres
  exact ⟨h.2.1, h.2.2⟩

/-- Witness for C6 at a concrete run: the check-in sender has no message history,
so no thread resolves, and after the request the stored inbound row (id 3) is
keyed to thread 3 — its own id. -/
theorem thread_resolution_exact_witness :
    resolveThread checkinStore 1 (some "hi") = none ∧
    ((∃ e ∈ (POST (mkCtx okOracle) checkinStore reqCheckin).1.store.emails,
        e.id = 3 ∧ e.threadId = some 3) ∧
      ∀ e ∈ (POST (mkCtx okOracle) checkinStore reqCheckin).1.store.emails,
        e.id = 3 → e.threadId = some 3) :=
  ⟨by decide,
   (thread_resolution_exact (mkCtx okOracle) checkinStore reqCheckin "jo@x.com" joProfile
      rfl rfl (by decide) rfl rfl).2.2.2 (by decide)⟩

/-! ## Due dates of pipeline-created goals (C8) -/

theorem GoalsDueOK.mono_gdo {n due : Nat} {st st2 : Store} (h : GoalsDueOK n due st)
    (hg : st2.goals = st.goals) : GoalsDueOK n due st2 := by
  intro g hmem hle
  exact h g (hg ▸ hmem) hle

theorem GoalsDueOK.email_insert_gdo {n due : Nat} {st : Store} (h : GoalsDueOK n due st)
    (u : Nat) (d : Direction) (s b : String) (th : Option Nat) :
    GoalsDueOK n due (st.insertEmail u d s b th).1 :=
  h.mono_gdo (by simp)

theorem GoalsDueOK.email_thread_update_gdo {n due : Nat} {st : Store} (h : GoalsDueOK n due st)
    (i tid : Nat) : GoalsDueOK n due (st.updateEmailThread i tid) :=
  h.mono_gdo (by simp)

theorem GoalsDueOK.email_annotate_gdo {n due : Nat} {st : Store} (h : GoalsDueOK n due st)
    (i : Nat) (s m : String) : GoalsDueOK n due (st.annotateEmail i s m) :=
  h.mono_gdo (by simp)

theorem GoalsDueOK.pending_insert_gdo {n due : Nat} {st : Store} (h : GoalsDueOK n due st)
    (e s b : String) (th : Option Nat) : GoalsDueOK n due (st.insertPending e s b th).1 :=
  h.mono_gdo (by simp)

theorem GoalsDueOK.pending_update_gdo {n due : Nat} {st : Store} (h : GoalsDueOK n due st)
    (i tid : Nat) : GoalsDueOK n due (st.updatePendingThread i tid) :=
  h.mono_gdo (by simp)

theorem GoalsDueOK.pending_delete_gdo {n due : Nat} {st : Store} (h : GoalsDueOK n due st)
    (e : String) : GoalsDueOK n due (st.deletePendingByEmail e) :=
  h.mono_gdo (by simp)

theorem GoalsDueOK.profile_onboard_gdo {n due : Nat} {st : Store} (h : GoalsDueOK n due st)
    (u : Nat) (nm : String) : GoalsDueOK n due (st.updateProfileOnboard u nm) :=
  h.mono_gdo (by simp)

theorem GoalsDueOK.user_confirm_gdo {n due : Nat} {st : Store} (h : GoalsDueOK n due st)
    (u : Nat) : GoalsDueOK n due (st.confirmUser u) :=
  h.mono_gdo (by simp)

theorem GoalsDueOK.summary_step_gdo {n due : Nat} {st : Store} (h : GoalsDueOK n due st)
    (c : Ctx) (u : Nat) (fn : String) : GoalsDueOK n due (updateUserSummary c st u fn) :=
  h.mono_gdo (updateUserSummary_frame c st u fn).1

theorem GoalsDueOK.group_step_gdo {n due : Nat} {st : Store} (h : GoalsDueOK n due st)
    (u : Nat) (m : String) : GoalsDueOK n due (checkAndCreateGroup st u m).1 :=
  h.mono_gdo (checkAndCreateGroup_frame st u m).1

theorem GoalsDueOK.goal_insert_gdo {n due : Nat} {st : Store} (h : GoalsDueOK n due st)
    (u : Nat) (d : String) : GoalsDueOK n due (st.insertGoal u d due) := by
  intro g hmem hle
  simp only [insertGoal_goals, List.mem_append, List.mem_singleton] at hmem
  rcases hmem with hmem | hmem
  · exact h g hmem hle
  · subst hmem
    rfl

theorem GoalsDueOK.goal_complete_gdo {n due : Nat} {st : Store} (h : GoalsDueOK n due st)
    (j now : Nat) : GoalsDueOK n due (st.completeGoal j now) := by
  intro g hmem hle
  simp only [completeGoal_goals, List.mem_map] at hmem
  obtain ⟨g0, hg0, heq⟩ := hmem
  by_cases hc : (g0.id == j) = true
  · rw [if_pos hc] at heq
    subst heq
    exact h g0 hg0 hle
  · rw [if_neg hc] at heq
    subst heq
    exact h g0 hg0 hle

theorem GoalsDueOK.ite_both_gdo {n due : Nat} {st1 st2 : Store} (b : Bool)
    (h1 : GoalsDueOK n due st1) (h2 : GoalsDueOK n due st2) :
    GoalsDueOK n due (if b then st1 else st2) := by
  cases b
  · simpa using h2
  · simpa using h1

theorem gdo_email_fold (u : Nat) (l : List PendingEmailRow) {n due : Nat} :
    ∀ {st : Store}, GoalsDueOK n due st →
      GoalsDueOK n due
        (l.foldl (fun s pe => (s.insertEmail u .inbound pe.subject pe.content none).1) st) := by
  induction l with
  | nil =>
    intro st h
    exact h
  | cons p ps ih =>
    intro st h
    exact ih (h.email_insert_gdo u .inbound p.subject p.content none)

theorem gdo_bind_send {n due : Nat} {c : Ctx} {r : RunSt} {m : SentEmail}
    {k : RunSt → Except (RunSt × String) (RunSt × HttpResponse)}
    (hok : ∀ r1 : RunSt, r1.store = r.store → GoalsDueOK n due (stOf (k r1)))
    (herr : GoalsDueOK n due r.store) :
    GoalsDueOK n due (stOf (sendEmailOp c r m >>= k)) := by
  unfold sendEmailOp
  cases ht : c.transport r.sendCount with
  | none =>
    dsimp only
    exact hok { r with sent := r.sent ++ [m], sendCount := r.sendCount + 1 } rfl
  | some msg =>
    dsimp only
    exact herr

theorem handleNonAuth_goals_due (c : Ctx) (r : RunSt) (e : String) (subject : Option String)
    (msg : String) (n : Nat) (h : GoalsDueOK n (nextSunday c.today) r.store) :
    GoalsDueOK n (nextSunday c.today) (stOf (handleNonAuthenticatedUser c r e subject msg)) := by
  unfold handleNonAuthenticatedUser
  dsimp only
  apply gdo_bind_send
  · intro r1 hr1
    simp only [stOf_pure]
    rw [hr1]
    dsimp only
    exact GoalsDueOK.ite_both_gdo _
      ((h.pending_insert_gdo _ _ _ _).pending_update_gdo _ _) (h.pending_insert_gdo _ _ _ _)
  · dsimp only
    exact GoalsDueOK.ite_both_gdo _
      ((h.pending_insert_gdo _ _ _ _).pending_update_gdo _ _) (h.pending_insert_gdo _ _ _ _)

theorem handleOnboardingReplyTry_goals_due (c : Ctx) (r : RunSt) (u : Nat) (e : String)
    (subject : Option String) (msg rs : String) (n : Nat)
    (h : GoalsDueOK n (nextSunday c.today) r.store) :
    GoalsDueOK n (nextSunday c.today)
      (stOf (handleOnboardingReplyTry c r u e subject msg rs)) := by
  unfold handleOnboardingReplyTry
  cases hp : c.oracle.parseOnboardingReply msg with
  | error err =>
    dsimp only
    exact h
  | ok ob =>
    dsimp only
    cases hob : ob.parsed with
    | false =>
      simp only [hob, Bool.not_false, if_true, ite_true]
      apply gdo_bind_send
      · intro r1 hr1
        simp only [stOf_pure]
        rw [hr1]
        exact (h.email_insert_gdo _ _ _ _ _).email_insert_gdo _ _ _ _ _
      · exact h
    | true =>
      simp only [hob, Bool.not_true, Bool.false_eq_true, if_false, ite_false]
      apply gdo_bind_send
      · intro r1 hr1
        simp only [stOf_pure]
        rw [hr1]
        exact ((GoalsDueOK.ite_both_gdo _
            (gdo_email_fold _ _ (((h.profile_onboard_gdo _ _).user_confirm_gdo _).goal_insert_gdo _ _))
            ((gdo_email_fold _ _
              (((h.profile_onboard_gdo _ _).user_confirm_gdo _).goal_insert_gdo _ _)).pending_delete_gdo
                _)).email_insert_gdo _ _ _ _ _).email_insert_gdo _ _ _ _ _
      · dsimp only
        exact GoalsDueOK.ite_both_gdo _
          (gdo_email_fold _ _ (((h.profile_onboard_gdo _ _).user_confirm_gdo _).goal_insert_gdo _ _))
          ((gdo_email_fold _ _
            (((h.profile_onboard_gdo _ _).user_confirm_gdo _).goal_insert_gdo _ _)).pending_delete_gdo _)

theorem handleOnboardingReply_goals_due (c : Ctx) (r : RunSt) (u : Nat) (e : String)
    (subject : Option String) (msg : String) (n : Nat)
    (h : GoalsDueOK n (nextSunday c.today) r.store) :
    GoalsDueOK n (nextSunday c.today) (stOf (handleOnboardingReply c r u e subject msg)) := by
  unfold handleOnboardingReply
  dsimp only
  have htry := handleOnboardingReplyTry_goals_due c r u e subject msg
    (replySubject subject "let\x27s get you set up") n h
  cases ht2 : handleOnboardingReplyTry c r u e subject msg
      (replySubject subject "let\x27s get you set up") with
  | ok res =>
    rw [ht2] at htry
    dsimp only
    exact htry
  | error rp =>
    rw [ht2] at htry
    obtain ⟨r2, emsg⟩ := rp
    simp only [stOf_error2] at htry
    dsimp only
    apply gdo_bind_send
    · intro r3 hr3
      simp only [stOf_pure]
      rw [hr3]
      exact htry
    · exact htry

theorem mainPath_goals_due (c : Ctx) (r : RunSt) (profile : ProfileRow)
    (subject : Option String) (msg : String) (ccEmails : List String) (n : Nat)
    (h : GoalsDueOK n (nextSunday c.today) r.store) :
    GoalsDueOK n (nextSunday c.today) (stOf (mainPath c r profile subject msg ccEmails)) := by
  unfold mainPath sendFallbackEmail
  dsimp only
  generalize hth0 : resolveThread r.store profile.userId subject = th0
  generalize hin : r.store.insertEmail profile.userId .inbound
    (strOrDefault subject "No subject") msg th0 = inserted
  have hins : GoalsDueOK n (nextSunday c.today) inserted.1 := by
    rw [← hin]
    exact h.email_insert_gdo _ _ _ _ _
  have h2 : GoalsDueOK n (nextSunday c.today) (if th0.isNone then
      (inserted.1.updateEmailThread inserted.2 inserted.2, some inserted.2)
    else (inserted.1, th0)).1 := by
    cases hb : th0.isNone
    · simp only [hb, Bool.false_eq_true, if_false, ite_false]
      exact hins
    · simp only [hb, if_true, ite_true]
      exact hins.email_thread_update_gdo _ _
  generalize hpr : (if th0.isNone then
      (inserted.1.updateEmailThread inserted.2 inserted.2, some inserted.2)
    else (inserted.1, th0)) = pr at h2 ⊢
  have h3 : GoalsDueOK n (nextSunday c.today) (checkAndCreateGroup pr.1 profile.userId msg).1 :=
    h2.group_step_gdo _ _
  generalize hst3 : (checkAndCreateGroup pr.1 profile.userId msg).1 = st3 at h3 ⊢
  cases hcr : (checkAndCreateGroup pr.1 profile.userId msg).2.created with
  | true =>
    simp only [if_true, ite_true]
    apply gdo_bind_send
    · intro r1 hr1
      simp only [stOf_pure]
      rw [hr1]
      dsimp only
      exact h3.email_insert_gdo _ _ _ _ _
    · dsimp only
      exact h3
  | false =>
    simp only [Bool.false_eq_true, if_false, ite_false]
    cases hsel : selectActiveGoal pr.1 profile.userId with
    | none =>
      dsimp only
      cases hconv : c.oracle.generateConversation (strOrDefault profile.firstName "there") msg
          (conversationHistory r.store profile.userId th0) none with
      | error err =>
        dsimp only
        apply gdo_bind_send
        · intro r1 hr1
          simp only [stOf_pure]
          rw [hr1]
          dsimp only
          exact h3
        · dsimp only
          exact h3
      | ok alpha =>
        dsimp only
        cases hgm : goalMatch (jsToLower msg) with
        | none =>
          dsimp only
          apply gdo_bind_send
          · intro r1 hr1
            simp only [stOf_pure]
            rw [hr1]
            dsimp only
            exact (h3.email_insert_gdo _ _ _ _ _).summary_step_gdo _ _ _
          · dsimp only
            exact h3
        | some cap =>
          dsimp only
          apply gdo_bind_send
          · intro r1 hr1
            simp only [stOf_pure]
            rw [hr1]
            dsimp only
            exact ((h3.goal_insert_gdo _ _).email_insert_gdo _ _ _ _ _).summary_step_gdo _ _ _
          · dsimp only
            exact h3.goal_insert_gdo _ _
    | some goal =>
      dsimp only
      cases hparse : c.oracle.parseUserReply msg goal.description with
      | error err =>
        dsimp only
        apply gdo_bind_send
        · intro r1 hr1
          simp only [stOf_pure]
          rw [hr1]
          dsimp only
          exact h3
        · dsimp only
          exact h3
      | ok parsed =>
        dsimp only
        have h5 : GoalsDueOK n (nextSunday c.today) (if jsTruthy parsed.nextGoal then
            (if parsed.completed then st3.completeGoal goal.id c.now else st3).insertGoal
              profile.userId (parsed.nextGoal.getD "") (nextSunday c.today)
          else if parsed.completed then st3.completeGoal goal.id c.now else st3) :=
          GoalsDueOK.ite_both_gdo _
            ((GoalsDueOK.ite_both_gdo _ (h3.goal_complete_gdo _ _) h3).goal_insert_gdo _ _)
            (GoalsDueOK.ite_both_gdo _ (h3.goal_complete_gdo _ _) h3)
        cases halpha : c.oracle.generateAlphaResponse (strOrDefault profile.firstName "there")
            goal.description parsed (conversationHistory r.store profile.userId th0) with
        | error err =>
          dsimp only
          apply gdo_bind_send
          · intro r1 hr1
            simp only [stOf_pure]
            rw [hr1]
            dsimp only
            exact h5.email_annotate_gdo _ _ _
          · dsimp only
            exact h5.email_annotate_gdo _ _ _
        | ok alpha =>
          dsimp only
          apply gdo_bind_send
          · intro r1 hr1
            simp only [stOf_pure]
            rw [hr1]
            dsimp only
            exact (((h5.email_annotate_gdo _ _ _).email_insert_gdo _ _ _ _ _).summary_step_gdo _ _ _)
          · dsimp only
            exact h5.email_annotate_gdo _ _ _

theorem postBody_goals_due (c : Ctx) (st : Store) (req : WebhookRequest) (n : Nat)
    (h : GoalsDueOK n (nextSunday c.today) st) :
    GoalsDueOK n (nextSunday c.today) (stOf (postBody c st req)) := by
  unfold postBody
  dsimp only
  split
  · exact h
  · split
    · exact h
    · split
      · exact h
      · split
        · split
          · exact handleOnboardingReply_goals_due _ _ _ _ _ _ _ h
          · exact mainPath_goals_due _ _ _ _ _ _ _ h
        · exact handleNonAuth_goals_due _ _ _ _ _ _ h

/-- C8: every goal the inbound pipeline creates — the lexical goal-intent match of
the no-goal path, the extracted next goal of the check-in path, and the goal made
at onboarding completion — is due on the upcoming Sunday: on a well-formed store,
every goals row allocated by the request (id at least the incoming counter) has
due date `nextSunday c.today = c.today + (7 - jsWeekday c.today)`, which falls on
a Sunday (weekday 0) between 1 and 7 days after the current date. -/
theorem pipeline_goal_due_next_sunday (c : Ctx) (st : Store) (req : WebhookRequest)
    (hwf : st.WF) :
    (∀ g ∈ (POST c st req).1.store.goals, st.nextId ≤ g.id →
      g.dueDate = nextSunday c.today) ∧
    jsWeekday (nextSunday c.today) = 0 ∧
    c.today + 1 ≤ nextSunday c.today ∧ nextSunday c.today ≤ c.today + 7 := by
  refine ⟨?_, ?_, ?_, ?_⟩
  · rw [POST_store]
    refine postBody_goals_due c st req st.nextId ?_
    intro g hmem hle
    have hlt := (hwf.2.2.2.1 g hmem).1
    omega
  · simp only [nextSunday, jsWeekday]
    omega
  · simp only [nextSunday, jsWeekday]
    omega
  · simp only [nextSunday, jsWeekday]
    omega

/-- Witness for C8 at a concrete run: the check-in store is well-formed, and with
`today = 10` (a Sunday) the computed due date is 17, the next Sunday, one week
out; the goal created from the extracted next goal carries it. -/
theorem pipeline_goal_due_next_sunday_witness :
    checkinStore.WF ∧
    ((∀ g ∈ (POST (mkCtx okOracle) checkinStore reqCheckin).1.store.goals,
        checkinStore.nextId ≤ g.id → g.dueDate = nextSunday (mkCtx okOracle).today) ∧
      jsWeekday (nextSunday (mkCtx okOracle).today) = 0 ∧
      (mkCtx okOracle).today + 1 ≤ nextSunday (mkCtx okOracle).today ∧
      nextSunday (mkCtx okOracle).today ≤ (mkCtx okOracle).today + 7) :=
  ⟨by decide, pipeline_goal_due_next_sunday (mkCtx okOracle) checkinStore reqCheckin (by decide)⟩

/-! ## Response shapes (C9) -/

@[simp] theorem respOf_pure (r : RunSt) (resp : HttpResponse) :
    respOf (pure (r, resp)) = resp := rfl

@[simp] theorem respOf_err (r : RunSt) (m : String) :
    respOf (Except.error (r, m)) = ⟨500, [("error", .s "Internal server error")]⟩ := rfl

theorem ar_sig : AllowedResponse ⟨401, [("error", .s "Invalid webhook signature")]⟩ :=
  Or.inl rfl

theorem ar_ignored : AllowedResponse ⟨200, [("message", .s "Ignored event type")]⟩ :=
  Or.inr (Or.inl rfl)

theorem ar_nosender : AllowedResponse ⟨400, [("error", .s "No sender email")]⟩ :=
  Or.inr (Or.inr (Or.inl rfl))

theorem ar_intro (b : Bool) :
    AllowedResponse ⟨200, [("success", .b true), ("action", .s "intro_sent"),
      ("isFirstEmail", .b b)]⟩ :=
  Or.inr (Or.inr (Or.inr (Or.inl ⟨b, rfl⟩)))

theorem ar_clar :
    AllowedResponse ⟨200, [("success", .b true), ("action", .s "onboarding_clarification")]⟩ :=
  Or.inr (Or.inr (Or.inr (Or.inr (Or.inl rfl))))

theorem ar_complete :
    AllowedResponse ⟨200, [("success", .b true), ("action", .s "onboarding_complete")]⟩ :=
  Or.inr (Or.inr (Or.inr (Or.inr (Or.inr (Or.inl rfl)))))

theorem ar_obfallback :
    AllowedResponse ⟨200, [("success", .b true), ("action", .s "onboarding_fallback")]⟩ :=
  Or.inr (Or.inr (Or.inr (Or.inr (Or.inr (Or.inr (Or.inl rfl))))))

theorem ar_group :
    AllowedResponse ⟨200, [("success", .b true), ("action", .s "group_created")]⟩ :=
  Or.inr (Or.inr (Or.inr (Or.inr (Or.inr (Or.inr (Or.inr (Or.inl rfl)))))))

theorem ar_conv :
    AllowedResponse ⟨200, [("success", .b true), ("action", .s "conversation")]⟩ :=
  Or.inr (Or.inr (Or.inr (Or.inr (Or.inr (Or.inr (Or.inr (Or.inr (Or.inl rfl))))))))

theorem ar_fallbackresp : AllowedResponse fallbackSentResponse :=
  Or.inr (Or.inr (Or.inr (Or.inr (Or.inr (Or.inr (Or.inr (Or.inr (Or.inr (Or.inl rfl)))))))))

theorem ar_parsed (p : ParsedReply) (tid : Option Nat) :
    AllowedResponse ⟨200, [("success", .b true), ("parsed", .pr p), ("threadId", .tid tid)]⟩ :=
  Or.inr (Or.inr (Or.inr (Or.inr (Or.inr (Or.inr (Or.inr (Or.inr (Or.inr (Or.inr
    (Or.inl ⟨p, tid, rfl⟩))))))))))

theorem ar_500 : AllowedResponse ⟨500, [("error", .s "Internal server error")]⟩ :=
  Or.inr (Or.inr (Or.inr (Or.inr (Or.inr (Or.inr (Or.inr (Or.inr (Or.inr (Or.inr
    (Or.inr rfl))))))))))

theorem resp_bind_send {c : Ctx} {r : RunSt} {m : SentEmail}
    {k : RunSt → Except (RunSt × String) (RunSt × HttpResponse)}
    (hok : ∀ r1 : RunSt, AllowedResponse (respOf (k r1))) :
    AllowedResponse (respOf (sendEmailOp c r m >>= k)) := by
  unfold sendEmailOp
  cases ht : c.transport r.sendCount with
  | none =>
    dsimp only
    exact hok _
  | some msg =>
    dsimp only
    exact ar_500

theorem handleNonAuth_resp (c : Ctx) (r : RunSt) (e : String) (subject : Option String)
    (msg : String) :
    AllowedResponse (respOf (handleNonAuthenticatedUser c r e subject msg)) := by
  unfold handleNonAuthenticatedUser
  dsimp only
  apply resp_bind_send
  intro r1
  simp only [respOf_pure]
  exact ar_intro _

theorem handleOnboardingReplyTry_resp (c : Ctx) (r : RunSt) (u : Nat) (e : String)
    (subject : Option String) (msg rs : String) :
    AllowedResponse (respOf (handleOnboardingReplyTry c r u e subject msg rs)) := by
  unfold handleOnboardingReplyTry
  cases hp : c.oracle.parseOnboardingReply msg with
  | error err =>
    dsimp only
    exact ar_500
  | ok ob =>
    dsimp only
    cases hob : ob.parsed with
    | false =>
      simp only [hob, Bool.not_false, if_true, ite_true]
      apply resp_bind_send
      intro r1
      simp only [respOf_pure]
      exact ar_clar
    | true =>
      simp only [hob, Bool.not_true, Bool.false_eq_true, if_false, ite_false]
      apply resp_bind_send
      intro r1
      simp only [respOf_pure]
      exact ar_complete

theorem handleOnboardingReply_resp (c : Ctx) (r : RunSt) (u : Nat) (e : String)
    (subject : Option String) (msg : String) :
    AllowedResponse (respOf (handleOnboardingReply c r u e subject msg)) := by
  unfold handleOnboardingReply
  dsimp only
  have htry := handleOnboardingReplyTry_resp c r u e subject msg
    (replySubject subject "let\x27s get you set up")
  cases ht2 : handleOnboardingReplyTry c r u e subject msg
      (replySubject subject "let\x27s get you set up") with
  | ok res =>
    rw [ht2] at htry
    dsimp only
    exact htry
  | error rp =>
    obtain ⟨r2, emsg⟩ := rp
    dsimp only
    apply resp_bind_send
    intro r3
    simp only [respOf_pure]
    exact ar_obfallback

theorem mainPath_resp (c : Ctx) (r : RunSt) (profile : ProfileRow) (subject : Option String)
    (msg : String) (ccEmails : List String) :
    AllowedResponse (respOf (mainPath c r profile subject msg ccEmails)) := by
  unfold mainPath sendFallbackEmail
  dsimp only
  repeat' split
  all_goals apply resp_bind_send
  all_goals intro r1
  all_goals simp only [respOf_pure]
  all_goals first
    | exact ar_group
    | exact ar_fallbackresp
    | exact ar_conv
    | exact ar_parsed _ _

theorem postBody_resp (c : Ctx) (st : Store) (req : WebhookRequest) :
    AllowedResponse (respOf (postBody c st req)) := by
  unfold postBody
  dsimp only
  split
  · exact ar_sig
  · split
    · exact ar_ignored
    · split
      · exact ar_nosender
      · split
        · split
          · exact handleOnboardingReply_resp _ _ _ _ _ _
          · exact mainPath_resp _ _ _ _ _ _
        · exact handleNonAuth_resp _ _ _ _ _

theorem POST_resp (c : Ctx) (st : Store) (req : WebhookRequest) :
    (POST c st req).2 = respOf (postBody c st req) := by
  unfold POST
  cases hp : postBody c st req with
  | ok res => rfl
  | error rp => rfl

/-- C9 (amended): every response body the handler materializes comes from a fixed
closed list of shapes — the three dispatch rejections, the success bodies tagged
with an action, the check-in success body (which carries `parsed` and `threadId`
but no `action` tag), and the constant generic 500 of the outer catch — so no
internal exception, transport, or provider error text ever reaches the caller;
but not every body carries a `success` boolean or an `action` tag. -/
theorem response_shape_closed (c : Ctx) (st : Store) (req : WebhookRequest) :
    AllowedResponse (POST c st req).2 := by
  rw [POST_resp]
  exact postBody_resp c st req

/-- C9 counterexample: a successful check-in run answers 200 with body keys
exactly success, parsed, threadId — there is no `action` tag naming the path
taken, against the claim that every response carries one. -/
theorem response_action_missing_counterexample :
    (POST (mkCtx okOracle) checkinStore reqCheckin).2.status = 200 ∧
    (POST (mkCtx okOracle) checkinStore reqCheckin).2.body.map Prod.fst =
      ["success", "parsed", "threadId"] :=
  ⟨rfl, rfl⟩

end Alphamail
